import Mathlib

/-!
# Text substitution of `xccdf:sub` markers (`xccdf_policy_substitute.c`)

A shallow embedding of `_xccdf_text_substitution_cb` and
`xccdf_policy_substitute`, together with the collaborators they call
(libxml2 nodes, the benchmark catalog, the policy and the depth-first
traversal), followed by the properties proved about them.

Pointers that may be `NULL` are `Option`s; the in-place replacement of `*node`
is returned as the new value of the handle; the messages handed to `dW` and
`oscap_seterr` are returned next to the status.
-/

/-! ## libxml2 data -/

/-- Node kinds of libxml2 (`xmlElementType`), those a text fragment can hold. -/
inductive xmlElementType where
  | XML_ELEMENT_NODE
  | XML_TEXT_NODE
  | XML_CDATA_SECTION_NODE
  | XML_COMMENT_NODE
  deriving DecidableEq, Repr

/-- Namespace record of libxml2 (`xmlNs`): the namespace URI and its prefix. -/
structure xmlNs where
  href : Option String
  pfx : Option String
  deriving DecidableEq, Repr

/-- Attribute of an element (`xmlAttr`): its name and its value. -/
structure xmlAttr where
  name : String
  value : String
  deriving DecidableEq, Repr

/-- Node of libxml2 (`struct _xmlNode`), with the fields the substitution reads
or writes: `type`, `name`, `ns`, `properties`, `children` and `content`. -/
inductive xmlNode where
  | mk (type : xmlElementType) (name : Option String) (ns : Option xmlNs)
      (properties : List xmlAttr) (children : List xmlNode)
      (content : Option String) : xmlNode

namespace xmlNode

/-- Field `type`. -/
def type : xmlNode → xmlElementType
  | mk t _ _ _ _ _ => t

/-- Field `name`. -/
def name : xmlNode → Option String
  | mk _ n _ _ _ _ => n

/-- Field `ns`. -/
def ns : xmlNode → Option xmlNs
  | mk _ _ s _ _ _ => s

/-- Field `properties`. -/
def properties : xmlNode → List xmlAttr
  | mk _ _ _ p _ _ => p

/-- Field `children` (the `NULL` pointer is the empty list). -/
def children : xmlNode → List xmlNode
  | mk _ _ _ _ c _ => c

/-- Field `content`. -/
def content : xmlNode → Option String
  | mk _ _ _ _ _ c => c

end xmlNode

/-- Lookup of an attribute by name in a property list. -/
def xmlGetProp_list (name : String) : List xmlAttr → Option String
  | [] => none
  | a :: rest => if a.name = name then some a.value else xmlGetProp_list name rest

/-- The libxml2 call `xmlGetProp(node, name)`: the value of the first attribute
called `name`, whatever its namespace, or `NULL` when there is none. -/
def xmlGetProp (node : xmlNode) (name : String) : Option String :=
  xmlGetProp_list name node.properties

/-- The libxml2 call `xmlNewText(content)`: a fresh text node, named `text`,
without namespace, attributes or children. -/
def xmlNewText (content : String) : xmlNode :=
  xmlNode.mk xmlElementType.XML_TEXT_NODE (some "text") none [] [] (some content)

/-! ## Helpers of the library -/

/-- Modelled from the spec: `oscap_streq` of `util.h`, which is not part of the
sources at hand. It compares two C strings and takes the `NULL` pointer for
the empty string, which is why the callback frees `sub_idref` on the branch
`oscap_streq(sub_idref, NULL)` ("It may be an empty string"). -/
def oscap_streq (s1 s2 : Option String) : Bool :=
  s1.getD "" == s2.getD ""

/-! ## The benchmark catalog and the policy -/

/-- Modelled from the spec: the item kinds of `xccdf_type_t` (`XCCDF/elements.h`
is not part of the sources at hand); the callback only tells `XCCDF_VALUE`
from the others. -/
inductive xccdf_type_t where
  | XCCDF_BENCHMARK
  | XCCDF_PROFILE
  | XCCDF_RESULT
  | XCCDF_RULE
  | XCCDF_GROUP
  | XCCDF_VALUE
  deriving DecidableEq, Repr

/-- One localized text (`struct oscap_text`); its string may be `NULL`. -/
structure oscap_text where
  text : Option String
  deriving DecidableEq, Repr

/-- Accessor `oscap_text_get_text`. -/
def oscap_text_get_text (t : oscap_text) : Option String := t.text

/-- Modelled from the spec: a benchmark item as the callback sees it, through
`xccdf_item_get_type` and `xccdf_item_get_title` (the title sequence in
iterator order). -/
structure xccdf_item where
  id : String
  type : xccdf_type_t
  title : List oscap_text
  deriving DecidableEq, Repr

/-- Accessor `xccdf_item_get_type`. -/
def xccdf_item_get_type (i : xccdf_item) : xccdf_type_t := i.type

/-- Accessor `xccdf_item_get_title`: the titles, in iterator order. -/
def xccdf_item_get_title (i : xccdf_item) : List oscap_text := i.title

/-- Modelled from the spec: the benchmark as an item catalog and a catalog of
plain-text blocks, both looked up by identifier (`xccdf_benchmark_get_item`,
`xccdf_benchmark_get_plain_text`). -/
structure xccdf_benchmark where
  get_item : String → Option xccdf_item
  get_plain_text : String → Option String

/-- Lookup `xccdf_benchmark_get_item`. -/
def xccdf_benchmark_get_item (b : xccdf_benchmark) (id : String) : Option xccdf_item :=
  b.get_item id

/-- Lookup `xccdf_benchmark_get_plain_text`. -/
def xccdf_benchmark_get_plain_text (b : xccdf_benchmark) (id : String) : Option String :=
  b.get_plain_text id

/-- Modelled from the spec: the policy model, which refers to its benchmark
(`xccdf_policy_model_get_benchmark` may give `NULL`). -/
structure xccdf_policy_model where
  benchmark : Option xccdf_benchmark

/-- Accessor `xccdf_policy_model_get_benchmark`. -/
def xccdf_policy_model_get_benchmark (m : xccdf_policy_model) : Option xccdf_benchmark :=
  m.benchmark

/-- Modelled from the spec: the resolved policy, which refers to its model
(`xccdf_policy_get_model` may give `NULL`) and binds a value string to items
(`xccdf_policy_get_value_of_item`, `NULL` when nothing is bound). -/
structure xccdf_policy where
  model : Option xccdf_policy_model
  get_value_of_item : xccdf_item → Option String

/-- Accessor `xccdf_policy_get_model`. -/
def xccdf_policy_get_model (p : xccdf_policy) : Option xccdf_policy_model := p.model

/-- Lookup `xccdf_policy_get_value_of_item`. -/
def xccdf_policy_get_value_of_item (p : xccdf_policy) (i : xccdf_item) : Option String :=
  p.get_value_of_item i

/-! ## The callback -/

/-- Enumerator `_TAILORING_TYPE`. -/
def _TAILORING_TYPE : Nat := 1

/-- Enumerator `_DOCUMENT_GENERATION_TYPE`. -/
def _DOCUMENT_GENERATION_TYPE : Nat := 2

/-- Enumerator `_ASSESSMENT_TYPE`. -/
def _ASSESSMENT_TYPE : Nat := 4

/-- The user data of the callback (`struct _xccdf_text_substitution_data`):
the policy, which may be `NULL`, and the processing type, a bit mask of the
three enumerators. -/
structure _xccdf_text_substitution_data where
  policy : Option xccdf_policy
  processing_type : Nat

/-- What one call of the callback leaves behind: the returned status, the node
`*node` points at afterwards (`none` when there is no node), the warnings
given to `dW` in order, and the message given to `oscap_seterr`, if any. -/
structure cb_result where
  status : Int
  node : Option xmlNode
  warnings : List String
  error : Option String

/-- Warning of the callback for a marker with content. -/
def warn_content : String :=
  "The xccdf:sub element SHALL NOT have any content.\n"

/-- Error of the callback for a marker without `idref`. -/
def err_idref : String :=
  "The xccdf:sub MUST have a single @idref attribute."

/-- Error of the callback for an `idref` that resolves to nothing. -/
def err_resolve (sub_idref : String) : String :=
  "Could not resolve xccdf:sub/@idref=\x27" ++ sub_idref ++ "\x27!"

/-- Warning of the callback for an unknown `use`. -/
def warn_use (sub_idref sub_use : String) : String :=
  "xccdf:sub/@idref=\x27" ++ sub_idref ++ "\x27 has incorrect @use=\x27" ++ sub_use
    ++ "\x27! Using @use=\x27value\x27 instead.\n"

/-- The part of `_xccdf_text_substitution_cb` that computes `result` (from the
lookup of the item to the end of the `if`/`else` on its type): the resolved
text, `none` for `NULL`, and the warnings given to `dW` on the way.
`sub_idref` is the `idref` of the marker `n`, which is not empty here. -/
def _xccdf_text_substitution_result (policy : xccdf_policy) (benchmark : xccdf_benchmark)
    (data : _xccdf_text_substitution_data) (n : xmlNode) (sub_idref : String) :
    Option String × List String :=
  let value := xccdf_benchmark_get_item benchmark sub_idref
  match value with
  | some v =>
    if xccdf_item_get_type v = xccdf_type_t.XCCDF_VALUE then
      let sub_use0 := xmlGetProp n "use"
      let sub_use : Option String :=
        if oscap_streq sub_use0 none || oscap_streq sub_use0 (some "legacy") then
          some (if data.processing_type &&& _TAILORING_TYPE ≠ 0 then "title" else "value")
        else sub_use0
      if oscap_streq sub_use (some "title") then
        let title_it := xccdf_item_get_title v
        match title_it with
        | t :: _ => (oscap_text_get_text t, [])
        | [] => (none, [])
      else
        (xccdf_policy_get_value_of_item policy v,
          if !oscap_streq sub_use (some "value")
          then [warn_use sub_idref (sub_use.getD "")] else [])
    else
      (xccdf_benchmark_get_plain_text benchmark sub_idref, [])
  | none => (xccdf_benchmark_get_plain_text benchmark sub_idref, [])

/-- The callback `_xccdf_text_substitution_cb(node, user_data)`.

`node` is the handle `xmlNode **`: `none` for `node == NULL`, `some none` for
`*node == NULL`. `xccdf_is_supported_namespace` is the namespace test of the
library, taken as a parameter. `assume_ex(c, 1)` returns 1 when `c` fails. -/
def _xccdf_text_substitution_cb (xccdf_is_supported_namespace : Option xmlNs → Bool)
    (node : Option (Option xmlNode)) (user_data : Option _xccdf_text_substitution_data) :
    cb_result :=
  match node, user_data with
  | some (some n), some data =>
    if oscap_streq n.name (some "sub") && xccdf_is_supported_namespace n.ns then
      let w0 : List String := if !n.children.isEmpty then [warn_content] else []
      let sub_idref := xmlGetProp n "idref"
      if oscap_streq sub_idref none then
        { status := 2, node := some n, warnings := w0, error := some err_idref }
      else
        match data.policy with
        | none => { status := 1, node := some n, warnings := w0, error := none }
        | some policy =>
          match xccdf_policy_get_model policy with
          | none => { status := 1, node := some n, warnings := w0, error := none }
          | some model =>
            match xccdf_policy_model_get_benchmark model with
            | none => { status := 1, node := some n, warnings := w0, error := none }
            | some benchmark =>
              let resolved :=
                _xccdf_text_substitution_result policy benchmark data n (sub_idref.getD "")
              match resolved.1 with
              | none =>
                { status := 2, node := some n, warnings := w0 ++ resolved.2,
                  error := some (err_resolve (sub_idref.getD "")) }
              | some result =>
                { status := 0, node := some (xmlNewText result),
                  warnings := w0 ++ resolved.2, error := none }
    else
      { status := 0, node := some n, warnings := [], error := none }
  | some (some n), none => { status := 1, node := some n, warnings := [], error := none }
  | _, _ => { status := 1, node := none, warnings := [], error := none }

/-! ## The traversal and the entry point -/

/-- The same node with another child list (what a rewrite below it leaves). -/
def xmlNode.set_children : xmlNode → List xmlNode → xmlNode
  | xmlNode.mk t n s p _ c, ch => xmlNode.mk t n s p ch c

mutual
/-- Height of a node: one more than the height of its child list. -/
def xmlNode.depth : xmlNode → Nat
  | xmlNode.mk _ _ _ _ ch _ => forest_depth ch + 1
/-- Height of a sibling list: the largest height among its nodes. -/
def forest_depth : List xmlNode → Nat
  | [] => 0
  | c :: rest => max c.depth (forest_depth rest)
end

/-- State of a traversal: the status so far, the rewritten nodes, and the
nodes the callback has been called on, in visiting order. -/
structure dfs_result where
  status : Int
  nodes : List xmlNode
  visited : List xmlNode

/-- Modelled from the spec: the walk over a sibling list of the depth-first
traversal of `xml_iterate.h`, which is not part of the sources at hand. Each
element node is handed to `visit`, in document order; nodes that are not
elements are kept as they are; the first non-zero status ends the walk, the
remaining siblings staying untouched. -/
def xml_forest_dfs (visit : xmlNode → Int × xmlNode × List xmlNode) :
    List xmlNode → dfs_result
  | [] => { status := 0, nodes := [], visited := [] }
  | c :: rest =>
    if c.type = xmlElementType.XML_ELEMENT_NODE then
      let r := visit c
      if r.1 ≠ 0 then
        { status := r.1, nodes := r.2.1 :: rest, visited := r.2.2 }
      else
        let rs := xml_forest_dfs visit rest
        { status := rs.status, nodes := r.2.1 :: rs.nodes, visited := r.2.2 ++ rs.visited }
    else
      let rs := xml_forest_dfs visit rest
      { status := rs.status, nodes := c :: rs.nodes, visited := rs.visited }

/-- Modelled from the spec: the visit of one element by the depth-first
traversal of `xml_iterate.h`. The callback is called on the element; a
non-zero status ends the traversal at once; otherwise the traversal goes on
from the node the handle points at afterwards (the element itself, or its
replacement) and walks its children. The first argument bounds the nesting
that is followed; `xml_iterate_dfs` passes the height of the parsed text. -/
def xml_element_dfs {δ : Type} (user_fn : Option (Option xmlNode) → Option δ → cb_result)
    (user_data : Option δ) : Nat → xmlNode → Int × xmlNode × List xmlNode
  | 0, n => (0, n, [])
  | fuel + 1, n =>
    let r := user_fn (some (some n)) user_data
    let n1 := r.node.getD n
    if r.status ≠ 0 then (r.status, n1, [n])
    else
      let rs := xml_forest_dfs (xml_element_dfs user_fn user_data fuel) n1.children
      (rs.status, n1.set_children rs.nodes, n :: rs.visited)

/-- What `xml_iterate_dfs` hands back: its return value, the text stored in
`*output_text` (`none` when nothing was stored), and the nodes the callback
was called on. -/
structure iterate_result where
  status : Int
  output_text : Option String
  visited : List xmlNode

/-- Modelled from the spec: `xml_iterate_dfs(input_text, &output_text, user_fn,
user_data)` of `xml_iterate.h`, which is not part of the sources at hand. The
text is parsed into its element tree (`parse`, the XML parser, gives `none`
for text that is not well formed), the tree is traversed depth first with the
callback, and the rewritten tree is written back (`dump`, the serializer). A
text that does not parse gives status -1 and no output. -/
def xml_iterate_dfs {δ : Type} (parse : String → Option (List xmlNode))
    (dump : List xmlNode → String) (input_text : String)
    (user_fn : Option (Option xmlNode) → Option δ → cb_result) (user_data : Option δ) :
    iterate_result :=
  match parse input_text with
  | none => { status := -1, output_text := none, visited := [] }
  | some forest =>
    let r := xml_forest_dfs (xml_element_dfs user_fn user_data (forest_depth forest)) forest
    { status := r.status, output_text := some (dump r.nodes), visited := r.visited }

/-- The entry point `xccdf_policy_substitute(text, policy)`. The traversal
`xml_iterate_dfs` and the namespace test are parameters. -/
def xccdf_policy_substitute
    (iterate : String → (Option (Option xmlNode) → Option _xccdf_text_substitution_data → cb_result)
      → Option _xccdf_text_substitution_data → iterate_result)
    (xccdf_is_supported_namespace : Option xmlNs → Bool)
    (text : String) (policy : Option xccdf_policy) : Option String :=
  let data : _xccdf_text_substitution_data :=
    { policy := policy, processing_type := _DOCUMENT_GENERATION_TYPE ||| _ASSESSMENT_TYPE }
  let r := iterate text (_xccdf_text_substitution_cb xccdf_is_supported_namespace) (some data)
  if r.status ≠ 0 then none else r.output_text

/-! ## Concrete data used to exercise the definitions -/

/-- A namespace test that accepts the XCCDF 1.2 namespace only. -/
def demo_supported (ns : Option xmlNs) : Bool :=
  match ns with
  | some x => x.href == some "http://checklists.nist.gov/xccdf/1.2"
  | none => false

/-- The XCCDF 1.2 namespace. -/
def demo_ns : xmlNs := { href := some "http://checklists.nist.gov/xccdf/1.2", pfx := none }

/-- An element `sub` of the XCCDF namespace with the given attributes and children. -/
def demo_sub (attrs : List xmlAttr) (ch : List xmlNode) : xmlNode :=
  xmlNode.mk xmlElementType.XML_ELEMENT_NODE (some "sub") (some demo_ns) attrs ch none

/-- A Value item with two titles. -/
def demo_value : xccdf_item :=
  { id := "V1", type := xccdf_type_t.XCCDF_VALUE,
    title := [{ text := some "Minimum length" }, { text := some "Second title" }] }

/-- A rule. -/
def demo_rule : xccdf_item :=
  { id := "R1", type := xccdf_type_t.XCCDF_RULE, title := [{ text := some "A rule" }] }

/-- A benchmark with the Value `V1`, the rule `R1` and the plain text `NOTE1`. -/
def demo_benchmark : xccdf_benchmark :=
  { get_item := fun id =>
      if id = "V1" then some demo_value else if id = "R1" then some demo_rule else none,
    get_plain_text := fun id => if id = "NOTE1" then some "Contact admin" else none }

/-- A policy over `demo_benchmark` that binds `V1` to `7`. -/
def demo_policy : xccdf_policy :=
  { model := some { benchmark := some demo_benchmark },
    get_value_of_item := fun i => if i.id = "V1" then some "7" else none }

/-- A serializer for the examples: the text nodes of the top level, in order. -/
def demo_dump (forest : List xmlNode) : String :=
  String.join (forest.map fun n => n.content.getD "")

/-- A Value item without a title, to which `demo_policy` binds nothing. -/
def demo_value_bare : xccdf_item :=
  { id := "V2", type := xccdf_type_t.XCCDF_VALUE, title := [] }

/-- A benchmark in which `V2` is both a Value item and the name of a plain
text. -/
def demo_benchmark_both : xccdf_benchmark :=
  { get_item := fun id => if id = "V2" then some demo_value_bare else none,
    get_plain_text := fun id => if id = "V2" then some "Fallback text" else none }

/-- A policy over `demo_benchmark_both` that binds no value. -/
def demo_policy_both : xccdf_policy :=
  { model := some { benchmark := some demo_benchmark_both },
    get_value_of_item := fun _ => none }

/-- An element of the XCCDF namespace with another name than `sub`. -/
def demo_object : xmlNode :=
  xmlNode.mk xmlElementType.XML_ELEMENT_NODE (some "object") (some demo_ns)
    [{ name := "data", value := "logo.png" }] [xmlNewText "alt"] none

/-! ## Verdicts of the OVAL results model (`oval_results.h`) -/

/-- The verdict of an evaluation (`oval_result_t`). -/
inductive oval_result_t where
  | OVAL_RESULT_INVALID
  | OVAL_RESULT_TRUE
  | OVAL_RESULT_FALSE
  | OVAL_RESULT_UNKNOWN
  | OVAL_RESULT_ERROR
  | OVAL_RESULT_NOT_EVALUATED
  | OVAL_RESULT_NOT_APPLICABLE
  deriving DecidableEq, Repr

/-- The enumerator values of `oval_result_t`. -/
def oval_result_t.toNat : oval_result_t → Nat
  | OVAL_RESULT_INVALID => 0
  | OVAL_RESULT_TRUE => 1
  | OVAL_RESULT_FALSE => 2
  | OVAL_RESULT_UNKNOWN => 3
  | OVAL_RESULT_ERROR => 4
  | OVAL_RESULT_NOT_EVALUATED => 5
  | OVAL_RESULT_NOT_APPLICABLE => 6

/-- Modelled from the spec: the negation step of `oval_result_criteria_node_eval`,
which `oval_results.h` declares without its body, as are the `negate` flag's
accessors. A node whose `negate` flag is set flips `True` and `False` and
passes every other verdict through; a node whose flag is not set leaves the
verdict alone. -/
def oval_result_negate (negate : Bool) (result : oval_result_t) : oval_result_t :=
  if negate then
    match result with
    | oval_result_t.OVAL_RESULT_TRUE => oval_result_t.OVAL_RESULT_FALSE
    | oval_result_t.OVAL_RESULT_FALSE => oval_result_t.OVAL_RESULT_TRUE
    | other => other
  else result

/-! ## Facts about the traversal -/

/-- A walk over siblings reports a non-zero status as soon as the callback
did so on a node the walk visited, provided the visit of one element does. -/
theorem xml_forest_dfs_status_of_visited (bad : xmlNode → Prop)
    (visit : xmlNode → Int × xmlNode × List xmlNode)
    (hvisit : ∀ c n, n ∈ (visit c).2.2 → bad n → (visit c).1 ≠ 0)
    (forest : List xmlNode) (n : xmlNode)
    (hmem : n ∈ (xml_forest_dfs visit forest).visited) (hbad : bad n) :
    (xml_forest_dfs visit forest).status ≠ 0 := by
  induction forest with
  | nil => simp [xml_forest_dfs] at hmem
  | cons c rest ih =>
    unfold xml_forest_dfs at hmem ⊢
    by_cases hty : c.type = xmlElementType.XML_ELEMENT_NODE
    · by_cases hs : (visit c).1 = 0
      · simp only [hty, hs, if_true, ne_eq, not_true_eq_false, if_false,
          List.mem_append] at hmem ⊢
        rcases hmem with h | h
        · exact absurd hs (hvisit c n h hbad)
        · exact ih h
      · simp only [hty, if_true, ne_eq, hs, not_false_eq_true] at hmem ⊢
    · simp only [hty, if_false] at hmem ⊢
      exact ih hmem

/-- The visit of one element reports a non-zero status as soon as the callback
returned one on a node it was called on. -/
theorem xml_element_dfs_status_of_visited {δ : Type}
    (user_fn : Option (Option xmlNode) → Option δ → cb_result) (user_data : Option δ)
    (fuel : Nat) (c n : xmlNode)
    (hmem : n ∈ (xml_element_dfs user_fn user_data fuel c).2.2)
    (hbad : (user_fn (some (some n)) user_data).status ≠ 0) :
    (xml_element_dfs user_fn user_data fuel c).1 ≠ 0 := by
  induction fuel generalizing c n with
  | zero => simp [xml_element_dfs] at hmem
  | succ fuel ih =>
    unfold xml_element_dfs at hmem ⊢
    by_cases hs : (user_fn (some (some c)) user_data).status = 0
    · simp only [hs, ne_eq, not_true_eq_false, if_false, List.mem_cons] at hmem ⊢
      rcases hmem with h | h
      · subst h
        exact absurd hs hbad
      · exact xml_forest_dfs_status_of_visited
          (fun x => (user_fn (some (some x)) user_data).status ≠ 0)
          (xml_element_dfs user_fn user_data fuel)
          (fun c1 n1 h1 h2 => ih c1 n1 h1 h2) _ n h hbad
    · simp only [ne_eq, hs, not_false_eq_true, if_true] at hmem ⊢

/-- The traversal of a text reports a non-zero status as soon as the callback
returned one on a node it was called on. -/
theorem xml_iterate_dfs_status_of_visited {δ : Type}
    (parse : String → Option (List xmlNode)) (dump : List xmlNode → String)
    (input_text : String)
    (user_fn : Option (Option xmlNode) → Option δ → cb_result) (user_data : Option δ)
    (n : xmlNode)
    (hmem : n ∈ (xml_iterate_dfs parse dump input_text user_fn user_data).visited)
    (hbad : (user_fn (some (some n)) user_data).status ≠ 0) :
    (xml_iterate_dfs parse dump input_text user_fn user_data).status ≠ 0 := by
  unfold xml_iterate_dfs at hmem ⊢
  cases hp : parse input_text with
  | none => simp [hp] at hmem
  | some forest =>
    simp only [hp] at hmem ⊢
    exact xml_forest_dfs_status_of_visited
      (fun x => (user_fn (some (some x)) user_data).status ≠ 0)
      _ (fun c1 n1 h1 h2 => xml_element_dfs_status_of_visited user_fn user_data _ c1 n1 h1 h2)
      forest n hmem hbad

/-- Every node has a positive height. -/
theorem xmlNode.depth_pos (n : xmlNode) : 0 < n.depth := by
  cases n with
  | mk t nm s p ch c => simp [xmlNode.depth]

/-- The height of a node is one more than the height of its children. -/
theorem xmlNode.depth_eq (n : xmlNode) : n.depth = forest_depth n.children + 1 := by
  cases n with
  | mk t nm s p ch c => simp [xmlNode.depth, xmlNode.children]

/-- A member of a sibling list is no higher than the list. -/
theorem forest_depth_of_mem (forest : List xmlNode) (c : xmlNode) (h : c ∈ forest) :
    c.depth ≤ forest_depth forest := by
  induction forest with
  | nil => simp at h
  | cons a rest ih =>
    simp only [forest_depth]
    rcases List.mem_cons.mp h with h1 | h1
    · subst h1
      exact le_max_left _ _
    · exact le_trans (ih h1) (le_max_right _ _)

/-- Walks with visits that agree on the members of a list agree on the list. -/
theorem xml_forest_dfs_congr (f g : xmlNode → Int × xmlNode × List xmlNode)
    (forest : List xmlNode) (h : ∀ c, c ∈ forest → f c = g c) :
    xml_forest_dfs f forest = xml_forest_dfs g forest := by
  induction forest with
  | nil => simp [xml_forest_dfs]
  | cons a rest ih =>
    have ha : f a = g a := h a (List.mem_cons_self a rest)
    have hr : xml_forest_dfs f rest = xml_forest_dfs g rest :=
      ih (fun c hc => h c (List.mem_cons_of_mem a hc))
    simp only [xml_forest_dfs, ha, hr]

/-- For a callback that never leaves a higher node behind than the one it was
given, a bound of at least the height of the element is never reached: one
more level of bound changes nothing. -/
theorem xml_element_dfs_fuel_succ {δ : Type}
    (user_fn : Option (Option xmlNode) → Option δ → cb_result) (user_data : Option δ)
    (hfn : ∀ n, ((user_fn (some (some n)) user_data).node.getD n).depth ≤ n.depth)
    (fuel : Nat) (c : xmlNode) (hc : c.depth ≤ fuel) :
    xml_element_dfs user_fn user_data (fuel + 1) c = xml_element_dfs user_fn user_data fuel c := by
  induction fuel generalizing c with
  | zero => exact absurd (xmlNode.depth_pos c) (by omega)
  | succ fuel ih =>
    rw [xml_element_dfs, xml_element_dfs]
    have hkids : xml_forest_dfs (xml_element_dfs user_fn user_data (fuel + 1))
          ((user_fn (some (some c)) user_data).node.getD c).children
        = xml_forest_dfs (xml_element_dfs user_fn user_data fuel)
          ((user_fn (some (some c)) user_data).node.getD c).children := by
      apply xml_forest_dfs_congr
      intro k hk
      apply ih
      have h1 := forest_depth_of_mem _ k hk
      have h2 := xmlNode.depth_eq ((user_fn (some (some c)) user_data).node.getD c)
      have h3 := hfn c
      omega
    simp only [hkids]

/-- For such a callback, every bound of at least the height of the element
gives the traversal of the element that the height itself gives. -/
theorem xml_element_dfs_fuel_enough {δ : Type}
    (user_fn : Option (Option xmlNode) → Option δ → cb_result) (user_data : Option δ)
    (hfn : ∀ n, ((user_fn (some (some n)) user_data).node.getD n).depth ≤ n.depth)
    (c : xmlNode) (extra : Nat) :
    xml_element_dfs user_fn user_data (c.depth + extra) c
      = xml_element_dfs user_fn user_data c.depth c := by
  induction extra with
  | zero => rfl
  | succ k ih =>
    rw [← ih, ← Nat.add_assoc]
    exact xml_element_dfs_fuel_succ user_fn user_data hfn (c.depth + k) c (by omega)

/-- The traversal of a text that is one element on which the callback
succeeds and leaves a text node behind: status 0, and the text node written
back. -/
theorem xml_iterate_dfs_single_replaced {δ : Type}
    (parse : String → Option (List xmlNode)) (dump : List xmlNode → String)
    (input_text : String)
    (user_fn : Option (Option xmlNode) → Option δ → cb_result) (user_data : Option δ)
    (n : xmlNode) (t : String)
    (hparse : parse input_text = some [n])
    (hty : n.type = xmlElementType.XML_ELEMENT_NODE)
    (hst : (user_fn (some (some n)) user_data).status = 0)
    (hnode : (user_fn (some (some n)) user_data).node = some (xmlNewText t)) :
    (xml_iterate_dfs parse dump input_text user_fn user_data).status = 0 ∧
    (xml_iterate_dfs parse dump input_text user_fn user_data).output_text
      = some (dump [xmlNewText t]) := by
  have hd : forest_depth [n] = forest_depth n.children + 1 := by
    simp [forest_depth, xmlNode.depth_eq n]
  simp [xml_iterate_dfs, hparse, hd, xml_forest_dfs, xml_element_dfs, hty, hst, hnode,
    xmlNewText, xmlNode.children, xmlNode.set_children]

/-- The traversal of a text that is one element on which the callback fails:
the status of the callback. -/
theorem xml_iterate_dfs_single_failed {δ : Type}
    (parse : String → Option (List xmlNode)) (dump : List xmlNode → String)
    (input_text : String)
    (user_fn : Option (Option xmlNode) → Option δ → cb_result) (user_data : Option δ)
    (n : xmlNode)
    (hparse : parse input_text = some [n])
    (hty : n.type = xmlElementType.XML_ELEMENT_NODE)
    (hst : (user_fn (some (some n)) user_data).status ≠ 0) :
    (xml_iterate_dfs parse dump input_text user_fn user_data).status
      = (user_fn (some (some n)) user_data).status := by
  have hd : forest_depth [n] = forest_depth n.children + 1 := by
    simp [forest_depth, xmlNode.depth_eq n]
  simp [xml_iterate_dfs, hparse, hd, xml_forest_dfs, xml_element_dfs, hty, hst]

/-- A walk over siblings gives back as many nodes as it was given. -/
theorem xml_forest_dfs_length (visit : xmlNode → Int × xmlNode × List xmlNode)
    (forest : List xmlNode) :
    (xml_forest_dfs visit forest).nodes.length = forest.length := by
  induction forest with
  | nil => simp [xml_forest_dfs]
  | cons c rest ih =>
    unfold xml_forest_dfs
    by_cases hty : c.type = xmlElementType.XML_ELEMENT_NODE
    · by_cases hs : (visit c).1 = 0
      · simp [hty, hs, ih]
      · simp [hty, hs]
    · simp [hty, ih]

/-- A walk over siblings whose first part succeeds is that part followed by
the walk over the rest. -/
theorem xml_forest_dfs_append (visit : xmlNode → Int × xmlNode × List xmlNode)
    (pre post : List xmlNode) (hpre : (xml_forest_dfs visit pre).status = 0) :
    (xml_forest_dfs visit (pre ++ post)).status = (xml_forest_dfs visit post).status ∧
    (xml_forest_dfs visit (pre ++ post)).nodes
      = (xml_forest_dfs visit pre).nodes ++ (xml_forest_dfs visit post).nodes := by
  induction pre with
  | nil => simp [xml_forest_dfs]
  | cons c rest ih =>
    rw [List.cons_append]
    by_cases hty : c.type = xmlElementType.XML_ELEMENT_NODE
    · by_cases hs : (visit c).1 = 0
      · have hstep : ∀ l, xml_forest_dfs visit (c :: l)
            = { status := (xml_forest_dfs visit l).status,
                nodes := (visit c).2.1 :: (xml_forest_dfs visit l).nodes,
                visited := (visit c).2.2 ++ (xml_forest_dfs visit l).visited } := by
          intro l
          simp [xml_forest_dfs, hty, hs]
        rw [hstep rest] at hpre
        have h := ih hpre
        rw [hstep (rest ++ post), hstep rest]
        simp [h.1, h.2]
      · have hstep : xml_forest_dfs visit (c :: rest)
            = { status := (visit c).1, nodes := (visit c).2.1 :: rest,
                visited := (visit c).2.2 } := by
          simp [xml_forest_dfs, hty, hs]
        rw [hstep] at hpre
        exact absurd hpre hs
    · have hstep : ∀ l, xml_forest_dfs visit (c :: l)
          = { status := (xml_forest_dfs visit l).status,
              nodes := c :: (xml_forest_dfs visit l).nodes,
              visited := (xml_forest_dfs visit l).visited } := by
        intro l
        simp [xml_forest_dfs, hty]
      rw [hstep rest] at hpre
      have h := ih hpre
      rw [hstep (rest ++ post), hstep rest]
      simp [h.1, h.2]

/-! ## Facts about the callback -/

/-- The callback leaves the node it was given, or a text node, behind. -/
theorem _xccdf_text_substitution_cb_node (ns_ok : Option xmlNs → Bool) (n : xmlNode)
    (user_data : Option _xccdf_text_substitution_data) :
    (_xccdf_text_substitution_cb ns_ok (some (some n)) user_data).node = some n ∨
    ∃ r, (_xccdf_text_substitution_cb ns_ok (some (some n)) user_data).node
      = some (xmlNewText r) := by
  cases user_data with
  | none => left; rfl
  | some data =>
    simp only [_xccdf_text_substitution_cb]
    split
    · split
      · left; rfl
      · split
        · left; rfl
        · split
          · left; rfl
          · split
            · left; rfl
            · split
              · left; rfl
              · right; exact ⟨_, rfl⟩
    · left; rfl

/-- The callback never leaves a higher node behind than the one it was given. -/
theorem _xccdf_text_substitution_cb_depth (ns_ok : Option xmlNs → Bool)
    (user_data : Option _xccdf_text_substitution_data) (n : xmlNode) :
    ((_xccdf_text_substitution_cb ns_ok (some (some n)) user_data).node.getD n).depth
      ≤ n.depth := by
  rcases _xccdf_text_substitution_cb_node ns_ok n user_data with h | ⟨r, h⟩
  · simp [h]
  · rw [h]
    have := xmlNode.depth_pos n
    simp only [Option.getD_some, xmlNewText, xmlNode.depth, forest_depth]
    omega

/-- The bound `xml_iterate_dfs` passes to the traversal is never reached by the
substitution callback: every larger bound gives the same traversal of the
parsed text. -/
theorem xml_forest_dfs_fuel_enough (ns_ok : Option xmlNs → Bool)
    (user_data : Option _xccdf_text_substitution_data) (forest : List xmlNode) (extra : Nat) :
    xml_forest_dfs (xml_element_dfs (_xccdf_text_substitution_cb ns_ok) user_data
        (forest_depth forest + extra)) forest
      = xml_forest_dfs (xml_element_dfs (_xccdf_text_substitution_cb ns_ok) user_data
        (forest_depth forest)) forest := by
  apply xml_forest_dfs_congr
  intro c hc
  have hle := forest_depth_of_mem forest c hc
  have hfn := _xccdf_text_substitution_cb_depth ns_ok user_data
  obtain ⟨k, hk⟩ : ∃ k, forest_depth forest = c.depth + k := ⟨_, (Nat.add_sub_cancel' hle).symm⟩
  rw [hk, Nat.add_assoc, xml_element_dfs_fuel_enough _ _ hfn c (k + extra),
    xml_element_dfs_fuel_enough _ _ hfn c k]

/-- On a `sub` marker of a recognized namespace with a non-empty `idref`, and
with a policy, a model and a benchmark at hand, the callback does what the
resolved text says: status 2 and the marker kept when there is none, status 0
and a text node in its place when there is one. -/
theorem _xccdf_text_substitution_cb_marker (ns_ok : Option xmlNs → Bool) (n : xmlNode)
    (data : _xccdf_text_substitution_data) (policy : xccdf_policy)
    (model : xccdf_policy_model) (benchmark : xccdf_benchmark) (idref : String)
    (hname : n.name = some "sub") (hns : ns_ok n.ns = true)
    (hid : xmlGetProp n "idref" = some idref) (hne : idref ≠ "")
    (hpol : data.policy = some policy)
    (hmod : xccdf_policy_get_model policy = some model)
    (hb : xccdf_policy_model_get_benchmark model = some benchmark) :
    _xccdf_text_substitution_cb ns_ok (some (some n)) (some data) =
      match (_xccdf_text_substitution_result policy benchmark data n idref).1 with
      | none =>
        { status := 2, node := some n,
          warnings := (if !n.children.isEmpty then [warn_content] else [])
            ++ (_xccdf_text_substitution_result policy benchmark data n idref).2,
          error := some (err_resolve idref) }
      | some result =>
        { status := 0, node := some (xmlNewText result),
          warnings := (if !n.children.isEmpty then [warn_content] else [])
            ++ (_xccdf_text_substitution_result policy benchmark data n idref).2,
          error := none } := by
  simp [_xccdf_text_substitution_cb, hname, hns, hid, hne, hpol, hmod, hb, oscap_streq]

/-- On a `sub` marker of a recognized namespace whose `idref` is missing or
empty the callback returns 2 at once. -/
theorem _xccdf_text_substitution_cb_no_idref (ns_ok : Option xmlNs → Bool) (n : xmlNode)
    (data : _xccdf_text_substitution_data)
    (hname : n.name = some "sub") (hns : ns_ok n.ns = true)
    (hid : (xmlGetProp n "idref").getD "" = "") :
    _xccdf_text_substitution_cb ns_ok (some (some n)) (some data) =
      { status := 2, node := some n,
        warnings := if !n.children.isEmpty then [warn_content] else [],
        error := some err_idref } := by
  simp [_xccdf_text_substitution_cb, hname, hns, hid, oscap_streq]

/-- The test of the Tailoring bit is the test of the lowest bit. -/
theorem tailoring_bit (processing_type : Nat) :
    (processing_type &&& _TAILORING_TYPE ≠ 0) ↔ processing_type % 2 = 1 := by
  simp only [_TAILORING_TYPE, Nat.and_one_is_mod]
  omega

/-- The resolved text of a marker that names a Value item and whose `use` is
`title`, or is omitted, empty or `legacy` while the Tailoring bit is set: the
text of the first title. -/
theorem _xccdf_text_substitution_result_title (policy : xccdf_policy)
    (benchmark : xccdf_benchmark) (data : _xccdf_text_substitution_data) (n : xmlNode)
    (idref : String) (v : xccdf_item)
    (hv : xccdf_benchmark_get_item benchmark idref = some v)
    (hty : xccdf_item_get_type v = xccdf_type_t.XCCDF_VALUE)
    (huse : xmlGetProp n "use" = some "title" ∨
      ((xmlGetProp n "use" = none ∨ xmlGetProp n "use" = some "" ∨
          xmlGetProp n "use" = some "legacy") ∧ data.processing_type % 2 = 1)) :
    _xccdf_text_substitution_result policy benchmark data n idref =
      ((xccdf_item_get_title v).head?.bind oscap_text_get_text, []) := by
  rcases huse with h | ⟨h | h | h, hp⟩
  · simp only [_xccdf_text_substitution_result, hv, hty, h, oscap_streq]
    cases xccdf_item_get_title v <;> simp
  all_goals
    have hbit : ¬ (data.processing_type &&& _TAILORING_TYPE = 0) :=
      (tailoring_bit data.processing_type).mpr hp
    simp only [_xccdf_text_substitution_result, hv, hty, h, oscap_streq]
    cases xccdf_item_get_title v <;> simp [hbit]

/-- The resolved text of a marker that names a Value item and whose `use` is
omitted, empty or `legacy` while the Tailoring bit is not set: the value the
policy binds to the item, without a warning. -/
theorem _xccdf_text_substitution_result_legacy_value (policy : xccdf_policy)
    (benchmark : xccdf_benchmark) (data : _xccdf_text_substitution_data) (n : xmlNode)
    (idref : String) (v : xccdf_item)
    (hv : xccdf_benchmark_get_item benchmark idref = some v)
    (hty : xccdf_item_get_type v = xccdf_type_t.XCCDF_VALUE)
    (huse : xmlGetProp n "use" = none ∨ xmlGetProp n "use" = some "" ∨
      xmlGetProp n "use" = some "legacy")
    (hp : data.processing_type % 2 ≠ 1) :
    _xccdf_text_substitution_result policy benchmark data n idref =
      (xccdf_policy_get_value_of_item policy v, []) := by
  have hbit : ¬ (data.processing_type &&& _TAILORING_TYPE ≠ 0) :=
    fun h => hp ((tailoring_bit data.processing_type).mp h)
  rcases huse with h | h | h <;>
    simp [_xccdf_text_substitution_result, hv, hty, h, oscap_streq, hbit]

/-- The resolved text of a marker that names a Value item and whose `use` is a
string other than the empty one, `legacy` and `title`: the value the policy
binds to the item, with a warning unless the string is `value`. -/
theorem _xccdf_text_substitution_result_value (policy : xccdf_policy)
    (benchmark : xccdf_benchmark) (data : _xccdf_text_substitution_data) (n : xmlNode)
    (idref : String) (v : xccdf_item) (u : String)
    (hv : xccdf_benchmark_get_item benchmark idref = some v)
    (hty : xccdf_item_get_type v = xccdf_type_t.XCCDF_VALUE)
    (huse : xmlGetProp n "use" = some u)
    (h1 : u ≠ "") (h2 : u ≠ "legacy") (h3 : u ≠ "title") :
    _xccdf_text_substitution_result policy benchmark data n idref =
      (xccdf_policy_get_value_of_item policy v,
        if u = "value" then [] else [warn_use idref u]) := by
  by_cases h4 : u = "value" <;>
    simp [_xccdf_text_substitution_result, hv, hty, huse, oscap_streq, h1, h2, h3, h4]

/-- The resolved text of a marker whose `idref` does not name a Value item: the
plain text the benchmark holds under the `idref`. -/
theorem _xccdf_text_substitution_result_plain (policy : xccdf_policy)
    (benchmark : xccdf_benchmark) (data : _xccdf_text_substitution_data) (n : xmlNode)
    (idref : String)
    (hv : xccdf_benchmark_get_item benchmark idref = none ∨
      ∃ v, xccdf_benchmark_get_item benchmark idref = some v ∧
        xccdf_item_get_type v ≠ xccdf_type_t.XCCDF_VALUE) :
    _xccdf_text_substitution_result policy benchmark data n idref =
      (xccdf_benchmark_get_plain_text benchmark idref, []) := by
  rcases hv with h | ⟨v, h, hty⟩
  · simp [_xccdf_text_substitution_result, h]
  · simp [_xccdf_text_substitution_result, h, hty]

/-- The resolved text depends on the marker through its attributes only. -/
theorem _xccdf_text_substitution_result_congr (policy : xccdf_policy)
    (benchmark : xccdf_benchmark) (data : _xccdf_text_substitution_data) (n m : xmlNode)
    (idref : String) (hprops : m.properties = n.properties) :
    _xccdf_text_substitution_result policy benchmark data m idref
      = _xccdf_text_substitution_result policy benchmark data n idref := by
  simp only [_xccdf_text_substitution_result, xmlGetProp, hprops]

/-- A marker with content gets the content warning first. -/
theorem warn_content_of_children (n : xmlNode) (hch : n.children ≠ []) :
    (if !n.children.isEmpty then [warn_content] else []) = [warn_content] := by
  cases h : n.children with
  | nil => exact absurd h hch
  | cons a l => simp

/-- On a `sub` marker of a recognized namespace with a non-empty `idref` the
callback returns 1 when the policy, its model or the benchmark of the model is
missing. -/
theorem _xccdf_text_substitution_cb_assume (ns_ok : Option xmlNs → Bool) (n : xmlNode)
    (data : _xccdf_text_substitution_data) (idref : String)
    (hname : n.name = some "sub") (hns : ns_ok n.ns = true)
    (hid : xmlGetProp n "idref" = some idref) (hne : idref ≠ "")
    (hnull : data.policy = none ∨
      (∃ p, data.policy = some p ∧ xccdf_policy_get_model p = none) ∨
      (∃ p md, data.policy = some p ∧ xccdf_policy_get_model p = some md ∧
        xccdf_policy_model_get_benchmark md = none)) :
    _xccdf_text_substitution_cb ns_ok (some (some n)) (some data) =
      { status := 1, node := some n,
        warnings := if !n.children.isEmpty then [warn_content] else [],
        error := none } := by
  rcases hnull with h | ⟨p, h, h1⟩ | ⟨p, md, h, h1, h2⟩
  · simp [_xccdf_text_substitution_cb, hname, hns, hid, hne, h, oscap_streq]
  · simp [_xccdf_text_substitution_cb, hname, hns, hid, hne, h, h1, oscap_streq]
  · simp [_xccdf_text_substitution_cb, hname, hns, hid, hne, h, h1, h2, oscap_streq]

/-- The policy, its model and the benchmark of the model are all there, or one
of them is missing. -/
theorem policy_chain_cases (data : _xccdf_text_substitution_data) :
    (∃ p md b, data.policy = some p ∧ xccdf_policy_get_model p = some md ∧
      xccdf_policy_model_get_benchmark md = some b) ∨
    (data.policy = none ∨
      (∃ p, data.policy = some p ∧ xccdf_policy_get_model p = none) ∨
      (∃ p md, data.policy = some p ∧ xccdf_policy_get_model p = some md ∧
        xccdf_policy_model_get_benchmark md = none)) := by
  cases h : data.policy with
  | none => exact Or.inr (Or.inl rfl)
  | some p =>
    cases h1 : xccdf_policy_get_model p with
    | none => exact Or.inr (Or.inr (Or.inl ⟨p, rfl, h1⟩))
    | some md =>
      cases h2 : xccdf_policy_model_get_benchmark md with
      | none => exact Or.inr (Or.inr (Or.inr ⟨p, md, rfl, h1, h2⟩))
      | some b => exact Or.inl ⟨p, md, b, rfl, h1, h2⟩

/-- On a `sub` marker of a recognized namespace, the status 0 comes with a text
node in place of the marker. -/
theorem _xccdf_text_substitution_cb_success (ns_ok : Option xmlNs → Bool) (n : xmlNode)
    (data : _xccdf_text_substitution_data)
    (hname : n.name = some "sub") (hns : ns_ok n.ns = true)
    (hst : (_xccdf_text_substitution_cb ns_ok (some (some n)) (some data)).status = 0) :
    ∃ r, (_xccdf_text_substitution_cb ns_ok (some (some n)) (some data)).node
      = some (xmlNewText r) := by
  cases hid : xmlGetProp n "idref" with
  | none =>
    rw [_xccdf_text_substitution_cb_no_idref ns_ok n data hname hns (by simp [hid])] at hst
    simp at hst
  | some idref =>
    by_cases hne : idref = ""
    · rw [_xccdf_text_substitution_cb_no_idref ns_ok n data hname hns
        (by simp [hid, hne])] at hst
      simp at hst
    · rcases policy_chain_cases data with ⟨p, md, b, h, h1, h2⟩ | hnull
      · rw [_xccdf_text_substitution_cb_marker ns_ok n data p md b idref hname hns hid hne
          h h1 h2] at hst ⊢
        cases hres : (_xccdf_text_substitution_result p b data n idref).1 with
        | none =>
          rw [hres] at hst
          simp at hst
        | some r => exact ⟨r, rfl⟩
      · rw [_xccdf_text_substitution_cb_assume ns_ok n data idref hname hns hid hne
          hnull] at hst
        simp at hst

/-! ## The claims -/

/-- C1: `xccdf_policy_substitute` is all-or-nothing. Whatever the traversal
function is, a non-zero status makes the entry point return nothing, whatever
text the traversal had produced, and the status 0 makes it return the text of
the traversal. For the depth-first traversal, a non-zero status of the callback
on any node it visited makes the status of the traversal non-zero, so the
entry point returns nothing. -/
theorem C1_substitute_all_or_nothing
    (iterate : String →
      (Option (Option xmlNode) → Option _xccdf_text_substitution_data → cb_result) →
      Option _xccdf_text_substitution_data → iterate_result)
    (ns_ok : Option xmlNs → Bool) (text : String) (policy : Option xccdf_policy) :
    ((iterate text (_xccdf_text_substitution_cb ns_ok)
        (some { policy := policy,
                processing_type := _DOCUMENT_GENERATION_TYPE ||| _ASSESSMENT_TYPE })).status ≠ 0 →
      xccdf_policy_substitute iterate ns_ok text policy = none) ∧
    ((iterate text (_xccdf_text_substitution_cb ns_ok)
        (some { policy := policy,
                processing_type := _DOCUMENT_GENERATION_TYPE ||| _ASSESSMENT_TYPE })).status = 0 →
      xccdf_policy_substitute iterate ns_ok text policy =
        (iterate text (_xccdf_text_substitution_cb ns_ok)
          (some { policy := policy,
                  processing_type :=
                    _DOCUMENT_GENERATION_TYPE ||| _ASSESSMENT_TYPE })).output_text) ∧
    (∀ (parse : String → Option (List xmlNode)) (dump : List xmlNode → String) (n : xmlNode),
      n ∈ (xml_iterate_dfs parse dump text (_xccdf_text_substitution_cb ns_ok)
        (some { policy := policy,
                processing_type := _DOCUMENT_GENERATION_TYPE ||| _ASSESSMENT_TYPE })).visited →
      (_xccdf_text_substitution_cb ns_ok (some (some n))
        (some { policy := policy,
                processing_type := _DOCUMENT_GENERATION_TYPE ||| _ASSESSMENT_TYPE })).status ≠ 0 →
      (xml_iterate_dfs parse dump text (_xccdf_text_substitution_cb ns_ok)
        (some { policy := policy,
                processing_type := _DOCUMENT_GENERATION_TYPE ||| _ASSESSMENT_TYPE })).status ≠ 0 ∧
      xccdf_policy_substitute (xml_iterate_dfs parse dump) ns_ok text policy = none) := by
  refine ⟨?_, ?_, ?_⟩
  · intro h
    simp only [xccdf_policy_substitute]
    rw [if_pos h]
  · intro h
    simp only [xccdf_policy_substitute]
    rw [if_neg (not_not.mpr h)]
  · intro parse dump n hmem hbad
    have hs := xml_iterate_dfs_status_of_visited parse dump text
      (_xccdf_text_substitution_cb ns_ok) _ n hmem hbad
    refine ⟨hs, ?_⟩
    simp only [xccdf_policy_substitute]
    rw [if_pos hs]

/-- C1, on concrete texts: a text whose only marker has no `idref` gives no
result, and a text whose only marker names the plain text `NOTE1` gives the
text of the traversal. -/
theorem C1_substitute_all_or_nothing_witness :
    xccdf_policy_substitute (xml_iterate_dfs (fun _ => some [demo_sub [] []]) demo_dump)
        demo_supported "<sub/>" (some demo_policy) = none ∧
    xccdf_policy_substitute
        (xml_iterate_dfs (fun _ => some [demo_sub [{ name := "idref", value := "NOTE1" }] []])
          demo_dump)
        demo_supported "<sub idref=\"NOTE1\"/>" (some demo_policy)
      = (xml_iterate_dfs (fun _ => some [demo_sub [{ name := "idref", value := "NOTE1" }] []])
          demo_dump "<sub idref=\"NOTE1\"/>" (_xccdf_text_substitution_cb demo_supported)
          (some { policy := some demo_policy,
                  processing_type :=
                    _DOCUMENT_GENERATION_TYPE ||| _ASSESSMENT_TYPE })).output_text :=
  ⟨(C1_substitute_all_or_nothing _ demo_supported "<sub/>" (some demo_policy)).1 (by decide),
   (C1_substitute_all_or_nothing _ demo_supported "<sub idref=\"NOTE1\"/>"
      (some demo_policy)).2.1 (by decide)⟩

/-- C2: on a `sub` marker of a recognized namespace whose `idref` is missing or
empty, the callback returns 2 and reports the missing attribute, leaves the
node in place, and does so whatever the user data (policy, benchmark,
processing type) are; when the traversal visits such a marker,
`xccdf_policy_substitute` returns nothing. -/
theorem C2_missing_idref (ns_ok : Option xmlNs → Bool) (n : xmlNode)
    (data : _xccdf_text_substitution_data)
    (hname : n.name = some "sub") (hns : ns_ok n.ns = true)
    (hid : xmlGetProp n "idref" = none ∨ xmlGetProp n "idref" = some "") :
    (_xccdf_text_substitution_cb ns_ok (some (some n)) (some data)).status = 2 ∧
    (_xccdf_text_substitution_cb ns_ok (some (some n)) (some data)).node = some n ∧
    (_xccdf_text_substitution_cb ns_ok (some (some n)) (some data)).error = some err_idref ∧
    (∀ data2 : _xccdf_text_substitution_data,
      _xccdf_text_substitution_cb ns_ok (some (some n)) (some data2)
        = _xccdf_text_substitution_cb ns_ok (some (some n)) (some data)) ∧
    (∀ (parse : String → Option (List xmlNode)) (dump : List xmlNode → String)
      (text : String) (policy : Option xccdf_policy),
      n ∈ (xml_iterate_dfs parse dump text (_xccdf_text_substitution_cb ns_ok)
        (some { policy := policy,
                processing_type := _DOCUMENT_GENERATION_TYPE ||| _ASSESSMENT_TYPE })).visited →
      xccdf_policy_substitute (xml_iterate_dfs parse dump) ns_ok text policy = none) := by
  have hstr : (xmlGetProp n "idref").getD "" = "" := by
    rcases hid with h | h <;> simp [h]
  have hcb : ∀ d : _xccdf_text_substitution_data,
      _xccdf_text_substitution_cb ns_ok (some (some n)) (some d)
        = { status := 2, node := some n,
            warnings := if !n.children.isEmpty then [warn_content] else [],
            error := some err_idref } := by
    intro d
    simp [_xccdf_text_substitution_cb, hname, hns, hstr, oscap_streq]
  refine ⟨by rw [hcb], by rw [hcb], by rw [hcb], ?_, ?_⟩
  · intro data2
    rw [hcb, hcb]
  · intro parse dump text policy hmem
    have hs := xml_iterate_dfs_status_of_visited parse dump text
      (_xccdf_text_substitution_cb ns_ok) _ n hmem (by rw [hcb]; simp)
    simp only [xccdf_policy_substitute]
    rw [if_pos hs]

/-- C2, on a marker `sub` without attributes. -/
theorem C2_missing_idref_witness :
    (_xccdf_text_substitution_cb demo_supported (some (some (demo_sub [] [])))
      (some { policy := some demo_policy, processing_type := 6 })).status = 2 ∧
    xccdf_policy_substitute (xml_iterate_dfs (fun _ => some [demo_sub [] []]) demo_dump)
      demo_supported "<sub/>" (some demo_policy) = none :=
  ⟨(C2_missing_idref demo_supported (demo_sub [] [])
      { policy := some demo_policy, processing_type := 6 } rfl rfl (Or.inl rfl)).1,
   (C2_missing_idref demo_supported (demo_sub [] [])
      { policy := some demo_policy, processing_type := 6 } rfl rfl (Or.inl rfl)).2.2.2.2
      (fun _ => some [demo_sub [] []]) demo_dump "<sub/>" (some demo_policy)
      (List.mem_cons_self _ _)⟩

/-- C3: with a policy, a model and a benchmark at hand, a `sub` marker of a
recognized namespace with a non-empty `idref` whose resolution yields no text
makes the callback return 2, report an error message that contains the
`idref`, and leave the marker in place; and the callback returns 2 on a node
only when its `idref` is missing or empty, or the resolution yields no text. -/
theorem C3_unresolved_idref (ns_ok : Option xmlNs → Bool) (n : xmlNode)
    (data : _xccdf_text_substitution_data) (policy : xccdf_policy)
    (model : xccdf_policy_model) (benchmark : xccdf_benchmark)
    (hpol : data.policy = some policy)
    (hmod : xccdf_policy_get_model policy = some model)
    (hb : xccdf_policy_model_get_benchmark model = some benchmark) :
    (∀ idref : String, n.name = some "sub" → ns_ok n.ns = true →
      xmlGetProp n "idref" = some idref → idref ≠ "" →
      (_xccdf_text_substitution_result policy benchmark data n idref).1 = none →
      (_xccdf_text_substitution_cb ns_ok (some (some n)) (some data)).status = 2 ∧
      (_xccdf_text_substitution_cb ns_ok (some (some n)) (some data)).node = some n ∧
      (_xccdf_text_substitution_cb ns_ok (some (some n)) (some data)).error
        = some (err_resolve idref) ∧
      ∃ pre post : String, err_resolve idref = pre ++ idref ++ post) ∧
    ((_xccdf_text_substitution_cb ns_ok (some (some n)) (some data)).status = 2 →
      (xmlGetProp n "idref" = none ∨ xmlGetProp n "idref" = some "") ∨
      ∃ idref : String, xmlGetProp n "idref" = some idref ∧ idref ≠ "" ∧
        (_xccdf_text_substitution_result policy benchmark data n idref).1 = none) := by
  constructor
  · intro idref hname hns hid hne hres
    have hcb : _xccdf_text_substitution_cb ns_ok (some (some n)) (some data)
        = { status := 2, node := some n,
            warnings := (if !n.children.isEmpty then [warn_content] else [])
              ++ (_xccdf_text_substitution_result policy benchmark data n idref).2,
            error := some (err_resolve idref) } := by
      simp [_xccdf_text_substitution_cb, hname, hns, hid, hne, hpol, hmod, hb, hres,
        oscap_streq]
    rw [hcb]
    exact ⟨rfl, rfl, rfl, "Could not resolve xccdf:sub/@idref=\x27", "\x27!", rfl⟩
  · intro hst
    by_cases hmk : (oscap_streq n.name (some "sub") && ns_ok n.ns) = true
    · cases hid : xmlGetProp n "idref" with
      | none => exact Or.inl (Or.inl rfl)
      | some idref =>
        by_cases hne : idref = ""
        · subst hne
          exact Or.inl (Or.inr rfl)
        · right
          refine ⟨idref, rfl, hne, ?_⟩
          cases hres : (_xccdf_text_substitution_result policy benchmark data n idref).1 with
          | none => rfl
          | some r =>
            exfalso
            simp [_xccdf_text_substitution_cb, hmk, hid, hne, hpol, hmod, hb, hres,
              oscap_streq] at hst
            split at hst <;> simp at hst
    · exfalso
      simp [_xccdf_text_substitution_cb, hmk] at hst

/-- C3, on a marker whose `idref` names nothing in the benchmark. -/
theorem C3_unresolved_idref_witness :
    (_xccdf_text_substitution_cb demo_supported
      (some (some (demo_sub [{ name := "idref", value := "ZZ" }] [])))
      (some { policy := some demo_policy, processing_type := 6 })).status = 2 ∧
    (_xccdf_text_substitution_cb demo_supported
      (some (some (demo_sub [{ name := "idref", value := "ZZ" }] [])))
      (some { policy := some demo_policy, processing_type := 6 })).error
        = some "Could not resolve xccdf:sub/@idref=\x27ZZ\x27!" :=
  ⟨((C3_unresolved_idref demo_supported (demo_sub [{ name := "idref", value := "ZZ" }] [])
      { policy := some demo_policy, processing_type := 6 } demo_policy
      { benchmark := some demo_benchmark } demo_benchmark rfl rfl rfl).1 "ZZ" rfl rfl rfl
      (by decide) rfl).1,
   ((C3_unresolved_idref demo_supported (demo_sub [{ name := "idref", value := "ZZ" }] [])
      { policy := some demo_policy, processing_type := 6 } demo_policy
      { benchmark := some demo_benchmark } demo_benchmark rfl rfl rfl).1 "ZZ" rfl rfl rfl
      (by decide) rfl).2.2.1⟩

/-- C4: for a marker whose `idref` names a Value item and whose `use` is
omitted or `legacy`, and for every processing type, the callback does what it
does on the same marker with `use="title"` when the processing type has the
Tailoring bit (it is odd), and with `use="value"` when it has not: same status,
same warnings, same error, and the same replacement node on success. -/
theorem C4_legacy_use (ns_ok : Option xmlNs → Bool) (n m : xmlNode)
    (data : _xccdf_text_substitution_data) (policy : xccdf_policy)
    (model : xccdf_policy_model) (benchmark : xccdf_benchmark) (idref : String)
    (v : xccdf_item)
    (hn : n.name = some "sub") (hnns : ns_ok n.ns = true)
    (hm : m.name = some "sub") (hmns : ns_ok m.ns = true)
    (hch : m.children = n.children)
    (hidn : xmlGetProp n "idref" = some idref) (hidm : xmlGetProp m "idref" = some idref)
    (hpol : data.policy = some policy)
    (hmod : xccdf_policy_get_model policy = some model)
    (hb : xccdf_policy_model_get_benchmark model = some benchmark)
    (hv : xccdf_benchmark_get_item benchmark idref = some v)
    (hty : xccdf_item_get_type v = xccdf_type_t.XCCDF_VALUE)
    (huse : xmlGetProp n "use" = none ∨ xmlGetProp n "use" = some "legacy")
    (hmuse : xmlGetProp m "use"
      = some (if data.processing_type % 2 = 1 then "title" else "value")) :
    (_xccdf_text_substitution_cb ns_ok (some (some n)) (some data)).status
      = (_xccdf_text_substitution_cb ns_ok (some (some m)) (some data)).status ∧
    (_xccdf_text_substitution_cb ns_ok (some (some n)) (some data)).warnings
      = (_xccdf_text_substitution_cb ns_ok (some (some m)) (some data)).warnings ∧
    (_xccdf_text_substitution_cb ns_ok (some (some n)) (some data)).error
      = (_xccdf_text_substitution_cb ns_ok (some (some m)) (some data)).error ∧
    ((_xccdf_text_substitution_cb ns_ok (some (some n)) (some data)).status = 0 →
      (_xccdf_text_substitution_cb ns_ok (some (some n)) (some data)).node
        = (_xccdf_text_substitution_cb ns_ok (some (some m)) (some data)).node) := by
  by_cases hne : idref = ""
  · rw [_xccdf_text_substitution_cb_no_idref ns_ok n data hn hnns (by simp [hidn, hne]),
      _xccdf_text_substitution_cb_no_idref ns_ok m data hm hmns (by simp [hidm, hne]), hch]
    simp
  · have hres : _xccdf_text_substitution_result policy benchmark data n idref
        = _xccdf_text_substitution_result policy benchmark data m idref := by
      by_cases hp : data.processing_type % 2 = 1
      · rw [if_pos hp] at hmuse
        rw [_xccdf_text_substitution_result_title policy benchmark data n idref v hv hty
            (Or.inr ⟨huse.elim Or.inl (fun h => Or.inr (Or.inr h)), hp⟩),
          _xccdf_text_substitution_result_title policy benchmark data m idref v hv hty
            (Or.inl hmuse)]
      · rw [if_neg hp] at hmuse
        rw [_xccdf_text_substitution_result_legacy_value policy benchmark data n idref v hv hty
            (huse.elim Or.inl (fun h => Or.inr (Or.inr h))) hp,
          _xccdf_text_substitution_result_value policy benchmark data m idref v "value" hv hty
            hmuse (by decide) (by decide) (by decide)]
        simp
    rw [_xccdf_text_substitution_cb_marker ns_ok n data policy model benchmark idref hn hnns
        hidn hne hpol hmod hb,
      _xccdf_text_substitution_cb_marker ns_ok m data policy model benchmark idref hm hmns
        hidm hne hpol hmod hb, hres, hch]
    cases (_xccdf_text_substitution_result policy benchmark data m idref).1 <;> simp

/-- C4, on the Value `V1`: in Tailoring (1) the marker without `use` gives the
first title, as the marker with `use="title"` does. -/
theorem C4_legacy_use_witness :
    (_xccdf_text_substitution_cb demo_supported
        (some (some (demo_sub [{ name := "idref", value := "V1" }] [])))
        (some { policy := some demo_policy, processing_type := 1 })).status = 0 ∧
    (_xccdf_text_substitution_cb demo_supported
        (some (some (demo_sub [{ name := "idref", value := "V1" }] [])))
        (some { policy := some demo_policy, processing_type := 1 })).node
      = (_xccdf_text_substitution_cb demo_supported
        (some (some (demo_sub [{ name := "idref", value := "V1" },
          { name := "use", value := "title" }] [])))
        (some { policy := some demo_policy, processing_type := 1 })).node :=
  ⟨rfl,
   (C4_legacy_use demo_supported
      (demo_sub [{ name := "idref", value := "V1" }] [])
      (demo_sub [{ name := "idref", value := "V1" }, { name := "use", value := "title" }] [])
      { policy := some demo_policy, processing_type := 1 } demo_policy
      { benchmark := some demo_benchmark } demo_benchmark "V1" demo_value
      rfl rfl rfl rfl rfl rfl rfl rfl rfl rfl rfl rfl (Or.inl rfl) rfl).2.2.2 rfl⟩

/-- C5: for a marker whose `idref` names a Value item and whose `use`, once
`legacy` is settled, is a string other than `title` (an explicit string other
than `title`, or an omitted, empty or `legacy` one without the Tailoring bit),
the callback replaces the marker by the value the policy binds to the item,
whatever the string is, and fails exactly when the policy binds none; a `use`
that is not known adds one warning and nothing else. -/
theorem C5_value_use (ns_ok : Option xmlNs → Bool) (n : xmlNode)
    (data : _xccdf_text_substitution_data) (policy : xccdf_policy)
    (model : xccdf_policy_model) (benchmark : xccdf_benchmark) (idref : String)
    (v : xccdf_item)
    (hname : n.name = some "sub") (hns : ns_ok n.ns = true)
    (hid : xmlGetProp n "idref" = some idref) (hne : idref ≠ "")
    (hpol : data.policy = some policy)
    (hmod : xccdf_policy_get_model policy = some model)
    (hb : xccdf_policy_model_get_benchmark model = some benchmark)
    (hv : xccdf_benchmark_get_item benchmark idref = some v)
    (hty : xccdf_item_get_type v = xccdf_type_t.XCCDF_VALUE)
    (huse : (∃ u, xmlGetProp n "use" = some u ∧ u ≠ "" ∧ u ≠ "legacy" ∧ u ≠ "title") ∨
      ((xmlGetProp n "use" = none ∨ xmlGetProp n "use" = some "" ∨
          xmlGetProp n "use" = some "legacy") ∧ data.processing_type % 2 ≠ 1)) :
    (∀ t, xccdf_policy_get_value_of_item policy v = some t →
      (_xccdf_text_substitution_cb ns_ok (some (some n)) (some data)).status = 0 ∧
      (_xccdf_text_substitution_cb ns_ok (some (some n)) (some data)).node
        = some (xmlNewText t) ∧
      (_xccdf_text_substitution_cb ns_ok (some (some n)) (some data)).error = none) ∧
    (xccdf_policy_get_value_of_item policy v = none →
      (_xccdf_text_substitution_cb ns_ok (some (some n)) (some data)).status = 2 ∧
      (_xccdf_text_substitution_cb ns_ok (some (some n)) (some data)).node = some n) ∧
    (∀ u, xmlGetProp n "use" = some u → u ≠ "" → u ≠ "legacy" → u ≠ "title" →
      (_xccdf_text_substitution_cb ns_ok (some (some n)) (some data)).warnings
        = (if !n.children.isEmpty then [warn_content] else [])
          ++ (if u = "value" then [] else [warn_use idref u])) := by
  have hcb := _xccdf_text_substitution_cb_marker ns_ok n data policy model benchmark idref
    hname hns hid hne hpol hmod hb
  have hres1 : (_xccdf_text_substitution_result policy benchmark data n idref).1
      = xccdf_policy_get_value_of_item policy v := by
    rcases huse with ⟨u, hu, h1, h2, h3⟩ | ⟨hu, hp⟩
    · rw [_xccdf_text_substitution_result_value policy benchmark data n idref v u hv hty hu
        h1 h2 h3]
    · rw [_xccdf_text_substitution_result_legacy_value policy benchmark data n idref v hv hty
        hu hp]
  refine ⟨?_, ?_, ?_⟩
  · intro t ht
    rw [hres1, ht] at hcb
    rw [hcb]
    exact ⟨rfl, rfl, rfl⟩
  · intro ht
    rw [hres1, ht] at hcb
    rw [hcb]
    exact ⟨rfl, rfl⟩
  · intro u hu h1 h2 h3
    have hres := _xccdf_text_substitution_result_value policy benchmark data n idref v u hv
      hty hu h1 h2 h3
    rw [hcb, hres]
    cases xccdf_policy_get_value_of_item policy v <;> rfl

/-- C5, on the Value `V1`, which the policy binds to `7`: the marker with
`use="value"` is replaced by the text `7`. -/
theorem C5_value_use_witness :
    (_xccdf_text_substitution_cb demo_supported
        (some (some (demo_sub [{ name := "idref", value := "V1" },
          { name := "use", value := "value" }] [])))
        (some { policy := some demo_policy, processing_type := 6 })).status = 0 ∧
    (_xccdf_text_substitution_cb demo_supported
        (some (some (demo_sub [{ name := "idref", value := "V1" },
          { name := "use", value := "value" }] [])))
        (some { policy := some demo_policy, processing_type := 6 })).node
      = some (xmlNewText "7") ∧
    (_xccdf_text_substitution_cb demo_supported
        (some (some (demo_sub [{ name := "idref", value := "V1" },
          { name := "use", value := "value" }] [])))
        (some { policy := some demo_policy, processing_type := 6 })).error = none :=
  (C5_value_use demo_supported
    (demo_sub [{ name := "idref", value := "V1" }, { name := "use", value := "value" }] [])
    { policy := some demo_policy, processing_type := 6 } demo_policy
    { benchmark := some demo_benchmark } demo_benchmark "V1" demo_value
    rfl rfl rfl (by decide) rfl rfl rfl rfl rfl
    (Or.inl ⟨"value", rfl, by decide, by decide, by decide⟩)).1 "7" rfl

/-- C6: for a marker whose `idref` names a Value item and whose `use`, once
`legacy` is settled, is `title` (an explicit `title`, or an omitted, empty or
`legacy` one with the Tailoring bit), and for an item with at least one title,
the callback replaces the marker by the text of the first title, whatever the
later titles are, and does the same under every policy of the same model,
whatever value it binds to the item. -/
theorem C6_title_use (ns_ok : Option xmlNs → Bool) (n : xmlNode)
    (data : _xccdf_text_substitution_data) (policy : xccdf_policy)
    (model : xccdf_policy_model) (benchmark : xccdf_benchmark) (idref : String)
    (v : xccdf_item) (t : oscap_text) (rest : List oscap_text)
    (hname : n.name = some "sub") (hns : ns_ok n.ns = true)
    (hid : xmlGetProp n "idref" = some idref) (hne : idref ≠ "")
    (hpol : data.policy = some policy)
    (hmod : xccdf_policy_get_model policy = some model)
    (hb : xccdf_policy_model_get_benchmark model = some benchmark)
    (hv : xccdf_benchmark_get_item benchmark idref = some v)
    (hty : xccdf_item_get_type v = xccdf_type_t.XCCDF_VALUE)
    (huse : xmlGetProp n "use" = some "title" ∨
      ((xmlGetProp n "use" = none ∨ xmlGetProp n "use" = some "" ∨
          xmlGetProp n "use" = some "legacy") ∧ data.processing_type % 2 = 1))
    (htitle : xccdf_item_get_title v = t :: rest) :
    (∀ s, oscap_text_get_text t = some s →
      (_xccdf_text_substitution_cb ns_ok (some (some n)) (some data)).status = 0 ∧
      (_xccdf_text_substitution_cb ns_ok (some (some n)) (some data)).node
        = some (xmlNewText s) ∧
      (_xccdf_text_substitution_cb ns_ok (some (some n)) (some data)).error = none) ∧
    (oscap_text_get_text t = none →
      (_xccdf_text_substitution_cb ns_ok (some (some n)) (some data)).status = 2 ∧
      (_xccdf_text_substitution_cb ns_ok (some (some n)) (some data)).node = some n) ∧
    (∀ policy2 : xccdf_policy, xccdf_policy_get_model policy2 = some model →
      _xccdf_text_substitution_cb ns_ok (some (some n))
          (some { policy := some policy2, processing_type := data.processing_type })
        = _xccdf_text_substitution_cb ns_ok (some (some n)) (some data)) := by
  have hcb := _xccdf_text_substitution_cb_marker ns_ok n data policy model benchmark idref
    hname hns hid hne hpol hmod hb
  have hres := _xccdf_text_substitution_result_title policy benchmark data n idref v hv hty huse
  rw [htitle] at hres
  simp only [List.head?_cons, Option.some_bind] at hres
  rw [hres] at hcb
  refine ⟨?_, ?_, ?_⟩
  · intro s hs
    rw [hs] at hcb
    rw [hcb]
    exact ⟨rfl, rfl, rfl⟩
  · intro hs
    rw [hs] at hcb
    rw [hcb]
    exact ⟨rfl, rfl⟩
  · intro policy2 hmod2
    have hcb2 := _xccdf_text_substitution_cb_marker ns_ok n
      { policy := some policy2, processing_type := data.processing_type } policy2 model
      benchmark idref hname hns hid hne rfl hmod2 hb
    have hres2 := _xccdf_text_substitution_result_title policy2 benchmark
      { policy := some policy2, processing_type := data.processing_type } n idref v hv hty huse
    rw [htitle] at hres2
    simp only [List.head?_cons, Option.some_bind] at hres2
    rw [hres2] at hcb2
    rw [hcb, hcb2]

/-- C6, on the Value `V1` with the titles `Minimum length` and `Second title`:
the marker with `use="title"` is replaced by the first of them. -/
theorem C6_title_use_witness :
    (_xccdf_text_substitution_cb demo_supported
        (some (some (demo_sub [{ name := "idref", value := "V1" },
          { name := "use", value := "title" }] [])))
        (some { policy := some demo_policy, processing_type := 6 })).status = 0 ∧
    (_xccdf_text_substitution_cb demo_supported
        (some (some (demo_sub [{ name := "idref", value := "V1" },
          { name := "use", value := "title" }] [])))
        (some { policy := some demo_policy, processing_type := 6 })).node
      = some (xmlNewText "Minimum length") ∧
    (_xccdf_text_substitution_cb demo_supported
        (some (some (demo_sub [{ name := "idref", value := "V1" },
          { name := "use", value := "title" }] [])))
        (some { policy := some demo_policy, processing_type := 6 })).error = none :=
  (C6_title_use demo_supported
    (demo_sub [{ name := "idref", value := "V1" }, { name := "use", value := "title" }] [])
    { policy := some demo_policy, processing_type := 6 } demo_policy
    { benchmark := some demo_benchmark } demo_benchmark "V1" demo_value
    { text := some "Minimum length" } [{ text := some "Second title" }]
    rfl rfl rfl (by decide) rfl rfl rfl rfl rfl (Or.inl rfl) rfl).1 "Minimum length" rfl

/-- C7: for a marker with a non-empty `idref` that names no Value item (no
item at all, or an item of another type), the callback replaces the marker by
the plain text the benchmark holds under the `idref`, and fails when there is
none; a marker that differs in its `use` (or any other attribute than `idref`)
gives the same status, warnings, error and replacement. -/
theorem C7_plain_text (ns_ok : Option xmlNs → Bool) (n : xmlNode)
    (data : _xccdf_text_substitution_data) (policy : xccdf_policy)
    (model : xccdf_policy_model) (benchmark : xccdf_benchmark) (idref : String)
    (hname : n.name = some "sub") (hns : ns_ok n.ns = true)
    (hid : xmlGetProp n "idref" = some idref) (hne : idref ≠ "")
    (hpol : data.policy = some policy)
    (hmod : xccdf_policy_get_model policy = some model)
    (hb : xccdf_policy_model_get_benchmark model = some benchmark)
    (hv : xccdf_benchmark_get_item benchmark idref = none ∨
      ∃ v, xccdf_benchmark_get_item benchmark idref = some v ∧
        xccdf_item_get_type v ≠ xccdf_type_t.XCCDF_VALUE) :
    (∀ t, xccdf_benchmark_get_plain_text benchmark idref = some t →
      (_xccdf_text_substitution_cb ns_ok (some (some n)) (some data)).status = 0 ∧
      (_xccdf_text_substitution_cb ns_ok (some (some n)) (some data)).node
        = some (xmlNewText t) ∧
      (_xccdf_text_substitution_cb ns_ok (some (some n)) (some data)).error = none) ∧
    (xccdf_benchmark_get_plain_text benchmark idref = none →
      (_xccdf_text_substitution_cb ns_ok (some (some n)) (some data)).status = 2 ∧
      (_xccdf_text_substitution_cb ns_ok (some (some n)) (some data)).node = some n) ∧
    (∀ m : xmlNode, m.name = some "sub" → ns_ok m.ns = true →
      xmlGetProp m "idref" = some idref → m.children = n.children →
      (_xccdf_text_substitution_cb ns_ok (some (some m)) (some data)).status
        = (_xccdf_text_substitution_cb ns_ok (some (some n)) (some data)).status ∧
      (_xccdf_text_substitution_cb ns_ok (some (some m)) (some data)).warnings
        = (_xccdf_text_substitution_cb ns_ok (some (some n)) (some data)).warnings ∧
      (_xccdf_text_substitution_cb ns_ok (some (some m)) (some data)).error
        = (_xccdf_text_substitution_cb ns_ok (some (some n)) (some data)).error ∧
      ((_xccdf_text_substitution_cb ns_ok (some (some n)) (some data)).status = 0 →
        (_xccdf_text_substitution_cb ns_ok (some (some m)) (some data)).node
          = (_xccdf_text_substitution_cb ns_ok (some (some n)) (some data)).node)) := by
  have hcb := _xccdf_text_substitution_cb_marker ns_ok n data policy model benchmark idref
    hname hns hid hne hpol hmod hb
  rw [_xccdf_text_substitution_result_plain policy benchmark data n idref hv] at hcb
  refine ⟨?_, ?_, ?_⟩
  · intro t ht
    rw [ht] at hcb
    rw [hcb]
    exact ⟨rfl, rfl, rfl⟩
  · intro ht
    rw [ht] at hcb
    rw [hcb]
    exact ⟨rfl, rfl⟩
  · intro m hm hmns hidm hch
    have hcbm := _xccdf_text_substitution_cb_marker ns_ok m data policy model benchmark idref
      hm hmns hidm hne hpol hmod hb
    rw [_xccdf_text_substitution_result_plain policy benchmark data m idref hv, hch] at hcbm
    rw [hcb, hcbm]
    cases xccdf_benchmark_get_plain_text benchmark idref <;> simp

/-- C7, on the plain text `NOTE1`, which reads `Contact admin`: the marker is
replaced by that text. -/
theorem C7_plain_text_witness :
    (_xccdf_text_substitution_cb demo_supported
        (some (some (demo_sub [{ name := "idref", value := "NOTE1" }] [])))
        (some { policy := some demo_policy, processing_type := 6 })).status = 0 ∧
    (_xccdf_text_substitution_cb demo_supported
        (some (some (demo_sub [{ name := "idref", value := "NOTE1" }] [])))
        (some { policy := some demo_policy, processing_type := 6 })).node
      = some (xmlNewText "Contact admin") ∧
    (_xccdf_text_substitution_cb demo_supported
        (some (some (demo_sub [{ name := "idref", value := "NOTE1" }] [])))
        (some { policy := some demo_policy, processing_type := 6 })).error = none :=
  (C7_plain_text demo_supported (demo_sub [{ name := "idref", value := "NOTE1" }] [])
    { policy := some demo_policy, processing_type := 6 } demo_policy
    { benchmark := some demo_benchmark } demo_benchmark "NOTE1"
    rfl rfl rfl (by decide) rfl rfl rfl (Or.inl rfl)).1 "Contact admin" rfl

/-- C8: `xccdf_policy_substitute` runs the callback with the processing type
Document-Generation | Assessment = 6, whatever the traversal is. With that
processing type a marker without `use` that names a Value item gives what the
same marker with `use="value"` gives, and is replaced by the value the policy
binds to the item (not by a title); a text that is this one marker comes back
as that value. -/
theorem C8_entry_point_default_use (ns_ok : Option xmlNs → Bool) (n : xmlNode)
    (policy : xccdf_policy) (model : xccdf_policy_model) (benchmark : xccdf_benchmark)
    (idref : String) (v : xccdf_item)
    (hname : n.name = some "sub") (hns : ns_ok n.ns = true)
    (hid : xmlGetProp n "idref" = some idref) (hne : idref ≠ "")
    (hmod : xccdf_policy_get_model policy = some model)
    (hb : xccdf_policy_model_get_benchmark model = some benchmark)
    (hv : xccdf_benchmark_get_item benchmark idref = some v)
    (hty : xccdf_item_get_type v = xccdf_type_t.XCCDF_VALUE)
    (huse : xmlGetProp n "use" = none) :
    (∀ (iterate : String →
        (Option (Option xmlNode) → Option _xccdf_text_substitution_data → cb_result) →
        Option _xccdf_text_substitution_data → iterate_result) (text : String),
      xccdf_policy_substitute iterate ns_ok text (some policy) =
        if (iterate text (_xccdf_text_substitution_cb ns_ok)
            (some { policy := some policy, processing_type := 6 })).status ≠ 0 then none
        else (iterate text (_xccdf_text_substitution_cb ns_ok)
            (some { policy := some policy, processing_type := 6 })).output_text) ∧
    (∀ m : xmlNode, m.name = some "sub" → ns_ok m.ns = true →
      xmlGetProp m "idref" = some idref → m.children = n.children →
      xmlGetProp m "use" = some "value" →
      (_xccdf_text_substitution_cb ns_ok (some (some n))
          (some { policy := some policy, processing_type := 6 })).status
        = (_xccdf_text_substitution_cb ns_ok (some (some m))
          (some { policy := some policy, processing_type := 6 })).status ∧
      (_xccdf_text_substitution_cb ns_ok (some (some n))
          (some { policy := some policy, processing_type := 6 })).warnings
        = (_xccdf_text_substitution_cb ns_ok (some (some m))
          (some { policy := some policy, processing_type := 6 })).warnings ∧
      (_xccdf_text_substitution_cb ns_ok (some (some n))
          (some { policy := some policy, processing_type := 6 })).error
        = (_xccdf_text_substitution_cb ns_ok (some (some m))
          (some { policy := some policy, processing_type := 6 })).error ∧
      ((_xccdf_text_substitution_cb ns_ok (some (some n))
          (some { policy := some policy, processing_type := 6 })).status = 0 →
        (_xccdf_text_substitution_cb ns_ok (some (some n))
            (some { policy := some policy, processing_type := 6 })).node
          = (_xccdf_text_substitution_cb ns_ok (some (some m))
            (some { policy := some policy, processing_type := 6 })).node)) ∧
    (∀ t, xccdf_policy_get_value_of_item policy v = some t →
      (_xccdf_text_substitution_cb ns_ok (some (some n))
          (some { policy := some policy, processing_type := 6 })).status = 0 ∧
      (_xccdf_text_substitution_cb ns_ok (some (some n))
          (some { policy := some policy, processing_type := 6 })).node
        = some (xmlNewText t)) ∧
    (∀ (parse : String → Option (List xmlNode)) (dump : List xmlNode → String)
      (text t : String), parse text = some [n] →
      n.type = xmlElementType.XML_ELEMENT_NODE →
      xccdf_policy_get_value_of_item policy v = some t →
      xccdf_policy_substitute (xml_iterate_dfs parse dump) ns_ok text (some policy)
        = some (dump [xmlNewText t])) := by
  have hres := _xccdf_text_substitution_result_legacy_value policy benchmark
    { policy := some policy, processing_type := 6 } n idref v hv hty (Or.inl huse)
    (by show 6 % 2 ≠ 1; decide)
  have hcb := _xccdf_text_substitution_cb_marker ns_ok n
    { policy := some policy, processing_type := 6 } policy model benchmark idref
    hname hns hid hne rfl hmod hb
  rw [hres] at hcb
  have hval : ∀ t, xccdf_policy_get_value_of_item policy v = some t →
      (_xccdf_text_substitution_cb ns_ok (some (some n))
          (some { policy := some policy, processing_type := 6 })).status = 0 ∧
      (_xccdf_text_substitution_cb ns_ok (some (some n))
          (some { policy := some policy, processing_type := 6 })).node
        = some (xmlNewText t) := by
    intro t ht
    rw [ht] at hcb
    rw [hcb]
    exact ⟨rfl, rfl⟩
  refine ⟨?_, ?_, hval, ?_⟩
  · intro iterate text
    rfl
  · intro m hm hmns hidm hch hmuse
    have hcbm := _xccdf_text_substitution_cb_marker ns_ok m
      { policy := some policy, processing_type := 6 } policy model benchmark idref
      hm hmns hidm hne rfl hmod hb
    rw [_xccdf_text_substitution_result_value policy benchmark
      { policy := some policy, processing_type := 6 } m idref v "value" hv hty hmuse
      (by decide) (by decide) (by decide), hch] at hcbm
    rw [hcb, hcbm]
    cases xccdf_policy_get_value_of_item policy v <;> simp
  · intro parse dump text t hparse hel ht
    have h := xml_iterate_dfs_single_replaced parse dump text
      (_xccdf_text_substitution_cb ns_ok)
      (some { policy := some policy, processing_type := 6 }) n t hparse hel
      (hval t ht).1 (hval t ht).2
    show (if (xml_iterate_dfs parse dump text (_xccdf_text_substitution_cb ns_ok)
        (some { policy := some policy, processing_type := 6 })).status ≠ 0 then none
      else (xml_iterate_dfs parse dump text (_xccdf_text_substitution_cb ns_ok)
        (some { policy := some policy, processing_type := 6 })).output_text) = _
    rw [if_neg (not_not.mpr h.1), h.2]

/-- C8, on the Value `V1`, bound to `7` and titled `Minimum length`: the text
that is one marker without `use` comes back as `7`. -/
theorem C8_entry_point_default_use_witness :
    xccdf_policy_substitute
        (xml_iterate_dfs (fun _ => some [demo_sub [{ name := "idref", value := "V1" }] []])
          demo_dump)
        demo_supported "<sub idref=\"V1\"/>" (some demo_policy) = some "7" :=
  (C8_entry_point_default_use demo_supported (demo_sub [{ name := "idref", value := "V1" }] [])
    demo_policy { benchmark := some demo_benchmark } demo_benchmark "V1" demo_value
    rfl rfl rfl (by decide) rfl rfl rfl rfl rfl).2.2.2
    (fun _ => some [demo_sub [{ name := "idref", value := "V1" }] []]) demo_dump
    "<sub idref=\"V1\"/>" "7" rfl rfl rfl

/-- C9, as stated, fails: the marker `sub` with the `idref` `NOTE1` and a text
child is a marker with content, yet the callback returns 0 on it and replaces
it, and the substitution of the text that is this marker succeeds. -/
theorem C9_content_rejected_counterexample :
    (demo_sub [{ name := "idref", value := "NOTE1" }] [xmlNewText "stray"]).children ≠ [] ∧
    (_xccdf_text_substitution_cb demo_supported
        (some (some (demo_sub [{ name := "idref", value := "NOTE1" }] [xmlNewText "stray"])))
        (some { policy := some demo_policy, processing_type := 6 })).status = 0 ∧
    (_xccdf_text_substitution_cb demo_supported
        (some (some (demo_sub [{ name := "idref", value := "NOTE1" }] [xmlNewText "stray"])))
        (some { policy := some demo_policy, processing_type := 6 })).node
      = some (xmlNewText "Contact admin") ∧
    xccdf_policy_substitute
        (xml_iterate_dfs
          (fun _ => some [demo_sub [{ name := "idref", value := "NOTE1" }] [xmlNewText "stray"]])
          demo_dump)
        demo_supported "<sub idref=\"NOTE1\">stray</sub>" (some demo_policy)
      = some "Contact admin" := by
  refine ⟨?_, rfl, rfl, ?_⟩
  · simp [demo_sub, xmlNode.children]
  · decide

/-- C9, amended: on a `sub` marker of a recognized namespace that has content,
with a policy, a model and a benchmark at hand, the callback gives the content
warning first and goes on; it returns 0 and replaces the marker whenever the
`idref` is not empty and resolves to a text, and returns a non-zero status only
when the `idref` is missing or empty or resolves to no text. -/
theorem C9_content_warned (ns_ok : Option xmlNs → Bool) (n : xmlNode)
    (data : _xccdf_text_substitution_data) (policy : xccdf_policy)
    (model : xccdf_policy_model) (benchmark : xccdf_benchmark)
    (hname : n.name = some "sub") (hns : ns_ok n.ns = true)
    (hch : n.children ≠ [])
    (hpol : data.policy = some policy)
    (hmod : xccdf_policy_get_model policy = some model)
    (hb : xccdf_policy_model_get_benchmark model = some benchmark) :
    (_xccdf_text_substitution_cb ns_ok (some (some n)) (some data)).warnings.head?
      = some warn_content ∧
    (∀ idref r, xmlGetProp n "idref" = some idref → idref ≠ "" →
      (_xccdf_text_substitution_result policy benchmark data n idref).1 = some r →
      (_xccdf_text_substitution_cb ns_ok (some (some n)) (some data)).status = 0 ∧
      (_xccdf_text_substitution_cb ns_ok (some (some n)) (some data)).node
        = some (xmlNewText r)) ∧
    ((_xccdf_text_substitution_cb ns_ok (some (some n)) (some data)).status ≠ 0 →
      (xmlGetProp n "idref" = none ∨ xmlGetProp n "idref" = some "") ∨
      ∃ idref, xmlGetProp n "idref" = some idref ∧ idref ≠ "" ∧
        (_xccdf_text_substitution_result policy benchmark data n idref).1 = none) := by
  have hw := warn_content_of_children n hch
  have hmarker : ∀ idref, xmlGetProp n "idref" = some idref → idref ≠ "" → _ :=
    fun idref hid hne => _xccdf_text_substitution_cb_marker ns_ok n data policy model
      benchmark idref hname hns hid hne hpol hmod hb
  refine ⟨?_, ?_, ?_⟩
  · cases hid : xmlGetProp n "idref" with
    | none =>
      rw [_xccdf_text_substitution_cb_no_idref ns_ok n data hname hns (by simp [hid]), hw]
      rfl
    | some idref =>
      by_cases hne : idref = ""
      · rw [_xccdf_text_substitution_cb_no_idref ns_ok n data hname hns (by simp [hid, hne]),
          hw]
        rfl
      · rw [hmarker idref hid hne, hw]
        cases (_xccdf_text_substitution_result policy benchmark data n idref).1 <;> rfl
  · intro idref r hid hne hres
    rw [hmarker idref hid hne, hres]
    exact ⟨rfl, rfl⟩
  · intro hst
    cases hid : xmlGetProp n "idref" with
    | none => exact Or.inl (Or.inl rfl)
    | some idref =>
      by_cases hne : idref = ""
      · subst hne
        exact Or.inl (Or.inr rfl)
      · right
        refine ⟨idref, rfl, hne, ?_⟩
        cases hres : (_xccdf_text_substitution_result policy benchmark data n idref).1 with
        | none => rfl
        | some r =>
          rw [hmarker idref hid hne, hres] at hst
          exact absurd rfl hst

/-- C9, amended, on the marker `sub` with the `idref` `NOTE1` and a text child:
the content warning comes first, and the marker is replaced all the same. -/
theorem C9_content_warned_witness :
    (_xccdf_text_substitution_cb demo_supported
        (some (some (demo_sub [{ name := "idref", value := "NOTE1" }] [xmlNewText "stray"])))
        (some { policy := some demo_policy, processing_type := 6 })).warnings.head?
      = some warn_content ∧
    (_xccdf_text_substitution_cb demo_supported
        (some (some (demo_sub [{ name := "idref", value := "NOTE1" }] [xmlNewText "stray"])))
        (some { policy := some demo_policy, processing_type := 6 })).status = 0 :=
  ⟨(C9_content_warned demo_supported
      (demo_sub [{ name := "idref", value := "NOTE1" }] [xmlNewText "stray"])
      { policy := some demo_policy, processing_type := 6 } demo_policy
      { benchmark := some demo_benchmark } demo_benchmark rfl rfl
      (by simp [demo_sub, xmlNode.children]) rfl rfl rfl).1,
   ((C9_content_warned demo_supported
      (demo_sub [{ name := "idref", value := "NOTE1" }] [xmlNewText "stray"])
      { policy := some demo_policy, processing_type := 6 } demo_policy
      { benchmark := some demo_benchmark } demo_benchmark rfl rfl
      (by simp [demo_sub, xmlNode.children]) rfl rfl rfl).2.1 "NOTE1" "Contact admin"
      rfl (by decide) rfl).1⟩

/-- C10: on a `sub` marker of a recognized namespace that has content, the
callback does what it does on the same marker without children (same name,
same namespace, same attributes, same user data) and adds the content warning
in front: same status, same error, same replacement node on success; and the
texts that are the one and the other marker get the same substitution. -/
theorem C10_content_same_result (ns_ok : Option xmlNs → Bool) (n m : xmlNode)
    (data : _xccdf_text_substitution_data)
    (hname : n.name = some "sub") (hns : ns_ok n.ns = true)
    (hch : n.children ≠ [])
    (hmname : m.name = n.name) (hmns : m.ns = n.ns)
    (hmprops : m.properties = n.properties) (hmch : m.children = []) :
    (_xccdf_text_substitution_cb ns_ok (some (some n)) (some data)).status
      = (_xccdf_text_substitution_cb ns_ok (some (some m)) (some data)).status ∧
    (_xccdf_text_substitution_cb ns_ok (some (some n)) (some data)).error
      = (_xccdf_text_substitution_cb ns_ok (some (some m)) (some data)).error ∧
    (_xccdf_text_substitution_cb ns_ok (some (some n)) (some data)).warnings
      = warn_content
        :: (_xccdf_text_substitution_cb ns_ok (some (some m)) (some data)).warnings ∧
    ((_xccdf_text_substitution_cb ns_ok (some (some n)) (some data)).status = 0 →
      (_xccdf_text_substitution_cb ns_ok (some (some n)) (some data)).node
        = (_xccdf_text_substitution_cb ns_ok (some (some m)) (some data)).node) ∧
    (∀ (parse : String → Option (List xmlNode)) (dump : List xmlNode → String)
      (text_n text_m : String) (policy : Option xccdf_policy),
      parse text_n = some [n] → parse text_m = some [m] →
      n.type = xmlElementType.XML_ELEMENT_NODE → m.type = xmlElementType.XML_ELEMENT_NODE →
      xccdf_policy_substitute (xml_iterate_dfs parse dump) ns_ok text_n policy
        = xccdf_policy_substitute (xml_iterate_dfs parse dump) ns_ok text_m policy) := by
  have hw := warn_content_of_children n hch
  have hmn : m.name = some "sub" := by rw [hmname, hname]
  have hms : ns_ok m.ns = true := by rw [hmns, hns]
  have hprop : ∀ k, xmlGetProp m k = xmlGetProp n k := by
    intro k
    simp only [xmlGetProp, hmprops]
  have main : ∀ d : _xccdf_text_substitution_data,
      (_xccdf_text_substitution_cb ns_ok (some (some n)) (some d)).status
        = (_xccdf_text_substitution_cb ns_ok (some (some m)) (some d)).status ∧
      (_xccdf_text_substitution_cb ns_ok (some (some n)) (some d)).error
        = (_xccdf_text_substitution_cb ns_ok (some (some m)) (some d)).error ∧
      (_xccdf_text_substitution_cb ns_ok (some (some n)) (some d)).warnings
        = warn_content
          :: (_xccdf_text_substitution_cb ns_ok (some (some m)) (some d)).warnings ∧
      ((_xccdf_text_substitution_cb ns_ok (some (some n)) (some d)).status = 0 →
        (_xccdf_text_substitution_cb ns_ok (some (some n)) (some d)).node
          = (_xccdf_text_substitution_cb ns_ok (some (some m)) (some d)).node) := by
    intro d
    by_cases hid0 : (xmlGetProp n "idref").getD "" = ""
    · rw [_xccdf_text_substitution_cb_no_idref ns_ok n d hname hns hid0,
        _xccdf_text_substitution_cb_no_idref ns_ok m d hmn hms (by rw [hprop]; exact hid0),
        hw, hmch]
      simp
    cases hid : xmlGetProp n "idref" with
    | none => simp [hid] at hid0
    | some idref =>
      by_cases hne : idref = ""
      · simp [hid, hne] at hid0
      · have hidm : xmlGetProp m "idref" = some idref := by rw [hprop, hid]
        rcases policy_chain_cases d with ⟨p, md, b, h, h1, h2⟩ | hnull
        · rw [_xccdf_text_substitution_cb_marker ns_ok n d p md b idref hname hns hid hne
              h h1 h2,
            _xccdf_text_substitution_cb_marker ns_ok m d p md b idref hmn hms hidm hne
              h h1 h2,
            _xccdf_text_substitution_result_congr p b d n m idref hmprops, hw, hmch]
          cases (_xccdf_text_substitution_result p b d n idref).1 <;> simp
        · rw [_xccdf_text_substitution_cb_assume ns_ok n d idref hname hns hid hne hnull,
            _xccdf_text_substitution_cb_assume ns_ok m d idref hmn hms hidm hne hnull,
            hw, hmch]
          simp
  refine ⟨(main data).1, (main data).2.1, (main data).2.2.1, (main data).2.2.2, ?_⟩
  intro parse dump text_n text_m policy hpn hpm htn htm
  obtain ⟨hst, -, -, hnode⟩ := main
    { policy := policy, processing_type := _DOCUMENT_GENERATION_TYPE ||| _ASSESSMENT_TYPE }
  simp only [xccdf_policy_substitute]
  by_cases h0 : (_xccdf_text_substitution_cb ns_ok (some (some n))
      (some { policy := policy,
              processing_type := _DOCUMENT_GENERATION_TYPE ||| _ASSESSMENT_TYPE })).status = 0
  · obtain ⟨r, hr⟩ := _xccdf_text_substitution_cb_success ns_ok n _ hname hns h0
    have hn1 := xml_iterate_dfs_single_replaced parse dump text_n
      (_xccdf_text_substitution_cb ns_ok) _ n r hpn htn h0 hr
    have hm1 := xml_iterate_dfs_single_replaced parse dump text_m
      (_xccdf_text_substitution_cb ns_ok) _ m r hpm htm (hst ▸ h0) ((hnode h0) ▸ hr)
    rw [if_neg (not_not.mpr hn1.1), if_neg (not_not.mpr hm1.1), hn1.2, hm1.2]
  · have hn1 := xml_iterate_dfs_single_failed parse dump text_n
      (_xccdf_text_substitution_cb ns_ok) _ n hpn htn h0
    have hm1 := xml_iterate_dfs_single_failed parse dump text_m
      (_xccdf_text_substitution_cb ns_ok) _ m hpm htm (hst ▸ h0)
    rw [if_pos (by rw [hn1]; exact h0), if_pos (by rw [hm1, ← hst]; exact h0)]

/-- C10, on the marker `sub` with the `idref` `NOTE1`, with and without a text
child: both are replaced by `Contact admin`, the first with one warning. -/
theorem C10_content_same_result_witness :
    (_xccdf_text_substitution_cb demo_supported
        (some (some (demo_sub [{ name := "idref", value := "NOTE1" }] [xmlNewText "stray"])))
        (some { policy := some demo_policy, processing_type := 6 })).node
      = (_xccdf_text_substitution_cb demo_supported
        (some (some (demo_sub [{ name := "idref", value := "NOTE1" }] [])))
        (some { policy := some demo_policy, processing_type := 6 })).node ∧
    (_xccdf_text_substitution_cb demo_supported
        (some (some (demo_sub [{ name := "idref", value := "NOTE1" }] [xmlNewText "stray"])))
        (some { policy := some demo_policy, processing_type := 6 })).warnings
      = [warn_content] :=
  ⟨(C10_content_same_result demo_supported
      (demo_sub [{ name := "idref", value := "NOTE1" }] [xmlNewText "stray"])
      (demo_sub [{ name := "idref", value := "NOTE1" }] [])
      { policy := some demo_policy, processing_type := 6 } rfl rfl
      (by simp [demo_sub, xmlNode.children]) rfl rfl rfl rfl).2.2.2.1 rfl,
   (C10_content_same_result demo_supported
      (demo_sub [{ name := "idref", value := "NOTE1" }] [xmlNewText "stray"])
      (demo_sub [{ name := "idref", value := "NOTE1" }] [])
      { policy := some demo_policy, processing_type := 6 } rfl rfl
      (by simp [demo_sub, xmlNode.children]) rfl rfl rfl rfl).2.2.1⟩

/-- C11: when the resolution of a `sub` marker yields the text `r`, the callback
returns 0 and leaves, in the handle, a text node whose content is `r` and
which has no children. In the traversal the visit of the marker is this one
call of the callback (nothing below the replacement is visited), and the
replacement stands among the rewritten siblings where the marker stood. -/
theorem C11_replace_in_place (ns_ok : Option xmlNs → Bool) (n : xmlNode)
    (data : _xccdf_text_substitution_data) (policy : xccdf_policy)
    (model : xccdf_policy_model) (benchmark : xccdf_benchmark) (idref r : String)
    (hname : n.name = some "sub") (hns : ns_ok n.ns = true)
    (hid : xmlGetProp n "idref" = some idref) (hne : idref ≠ "")
    (hpol : data.policy = some policy)
    (hmod : xccdf_policy_get_model policy = some model)
    (hb : xccdf_policy_model_get_benchmark model = some benchmark)
    (hres : (_xccdf_text_substitution_result policy benchmark data n idref).1 = some r) :
    (_xccdf_text_substitution_cb ns_ok (some (some n)) (some data)).status = 0 ∧
    (_xccdf_text_substitution_cb ns_ok (some (some n)) (some data)).node
      = some (xmlNewText r) ∧
    (xmlNewText r).type = xmlElementType.XML_TEXT_NODE ∧
    (xmlNewText r).content = some r ∧
    (xmlNewText r).children = [] ∧
    (∀ fuel : Nat,
      xml_element_dfs (_xccdf_text_substitution_cb ns_ok) (some data) (fuel + 1) n
        = (0, xmlNewText r, [n])) ∧
    (∀ (fuel : Nat) (pre post : List xmlNode),
      n.type = xmlElementType.XML_ELEMENT_NODE →
      (xml_forest_dfs (xml_element_dfs (_xccdf_text_substitution_cb ns_ok) (some data)
        (fuel + 1)) pre).status = 0 →
      (xml_forest_dfs (xml_element_dfs (_xccdf_text_substitution_cb ns_ok) (some data)
        (fuel + 1)) (pre ++ n :: post)).nodes.length = (pre ++ n :: post).length ∧
      (xml_forest_dfs (xml_element_dfs (_xccdf_text_substitution_cb ns_ok) (some data)
        (fuel + 1)) (pre ++ n :: post)).nodes[pre.length]? = some (xmlNewText r)) := by
  have hcb := _xccdf_text_substitution_cb_marker ns_ok n data policy model benchmark idref
    hname hns hid hne hpol hmod hb
  rw [hres] at hcb
  have hvisit : ∀ fuel : Nat,
      xml_element_dfs (_xccdf_text_substitution_cb ns_ok) (some data) (fuel + 1) n
        = (0, xmlNewText r, [n]) := by
    intro fuel
    simp [xml_element_dfs, hcb, xmlNewText, xmlNode.children, xmlNode.set_children,
      xml_forest_dfs]
  refine ⟨by rw [hcb], by rw [hcb], rfl, rfl, rfl, hvisit, ?_⟩
  intro fuel pre post hel hpre
  refine ⟨xml_forest_dfs_length _ _, ?_⟩
  have happ := (xml_forest_dfs_append _ pre (n :: post) hpre).2
  have hlen := xml_forest_dfs_length
    (xml_element_dfs (_xccdf_text_substitution_cb ns_ok) (some data) (fuel + 1)) pre
  have hhead : (xml_forest_dfs (xml_element_dfs (_xccdf_text_substitution_cb ns_ok)
      (some data) (fuel + 1)) (n :: post)).nodes
      = xmlNewText r :: (xml_forest_dfs (xml_element_dfs (_xccdf_text_substitution_cb ns_ok)
        (some data) (fuel + 1)) post).nodes := by
    rw [xml_forest_dfs]
    simp [hel, hvisit fuel]
  rw [happ, hhead, ← hlen, List.getElem?_append_right (Nat.le_refl _), Nat.sub_self]
  exact List.getElem?_cons_zero

/-- C11, on the marker of the plain text `NOTE1` between two text nodes: the
marker is replaced by the text node `Contact admin`, which stands second among
the three rewritten nodes as the marker did. -/
theorem C11_replace_in_place_witness :
    (_xccdf_text_substitution_cb demo_supported
        (some (some (demo_sub [{ name := "idref", value := "NOTE1" }] [])))
        (some { policy := some demo_policy, processing_type := 6 })).node
      = some (xmlNewText "Contact admin") ∧
    (xml_forest_dfs (xml_element_dfs (_xccdf_text_substitution_cb demo_supported)
        (some { policy := some demo_policy, processing_type := 6 }) (0 + 1))
      ([xmlNewText "See: "] ++ demo_sub [{ name := "idref", value := "NOTE1" }] []
        :: [xmlNewText "."])).nodes[[xmlNewText "See: "].length]?
      = some (xmlNewText "Contact admin") :=
  ⟨(C11_replace_in_place demo_supported (demo_sub [{ name := "idref", value := "NOTE1" }] [])
      { policy := some demo_policy, processing_type := 6 } demo_policy
      { benchmark := some demo_benchmark } demo_benchmark "NOTE1" "Contact admin"
      rfl rfl rfl (by decide) rfl rfl rfl rfl).2.1,
   ((C11_replace_in_place demo_supported (demo_sub [{ name := "idref", value := "NOTE1" }] [])
      { policy := some demo_policy, processing_type := 6 } demo_policy
      { benchmark := some demo_benchmark } demo_benchmark "NOTE1" "Contact admin"
      rfl rfl rfl (by decide) rfl rfl rfl rfl).2.2.2.2.2.2 0 [xmlNewText "See: "]
      [xmlNewText "."] rfl rfl).2⟩

/-- C12: on a node that is not a `sub` marker of a recognized namespace (another
name, or a namespace that is not supported) the callback returns 0, leaves the
node in the handle as it was, and reports nothing, whatever the user data
(policy and processing type) are. -/
theorem C12_other_nodes_untouched (ns_ok : Option xmlNs → Bool) (n : xmlNode)
    (data : _xccdf_text_substitution_data)
    (hnot : n.name ≠ some "sub" ∨ ns_ok n.ns = false) :
    _xccdf_text_substitution_cb ns_ok (some (some n)) (some data)
      = { status := 0, node := some n, warnings := [], error := none } := by
  have hcond : (oscap_streq n.name (some "sub") && ns_ok n.ns) = false := by
    rcases hnot with h | h
    · have hs : oscap_streq n.name (some "sub") = false := by
        cases hn : n.name with
        | none => simp [oscap_streq]
        | some s =>
          have hne : s ≠ "sub" := fun hs => h (by rw [hn, hs])
          simp [oscap_streq, hne]
      simp [hs]
    · simp [h]
  simp [_xccdf_text_substitution_cb, hcond]

/-- C12, on an element `object` of the XCCDF namespace and on an element `sub`
without namespace: both come back as they were, with status 0. -/
theorem C12_other_nodes_untouched_witness :
    _xccdf_text_substitution_cb demo_supported (some (some demo_object))
        (some { policy := some demo_policy, processing_type := 6 })
      = { status := 0, node := some demo_object, warnings := [], error := none } ∧
    _xccdf_text_substitution_cb demo_supported
        (some (some (xmlNode.mk xmlElementType.XML_ELEMENT_NODE (some "sub") none
          [{ name := "idref", value := "NOTE1" }] [] none)))
        (some { policy := some demo_policy, processing_type := 6 })
      = { status := 0,
          node := some (xmlNode.mk xmlElementType.XML_ELEMENT_NODE (some "sub") none
            [{ name := "idref", value := "NOTE1" }] [] none),
          warnings := [], error := none } :=
  ⟨C12_other_nodes_untouched demo_supported demo_object
      { policy := some demo_policy, processing_type := 6 } (Or.inl (by decide)),
   C12_other_nodes_untouched demo_supported
      (xmlNode.mk xmlElementType.XML_ELEMENT_NODE (some "sub") none
        [{ name := "idref", value := "NOTE1" }] [] none)
      { policy := some demo_policy, processing_type := 6 } (Or.inr rfl)⟩

/-- C13: the negation of a criteria node flips `True` and `False`, passes every
other verdict through, and applied twice gives back every verdict of
`oval_result_t`; without the flag the verdict is left alone. -/
theorem C13_negate_involution :
    (∀ v : oval_result_t, oval_result_negate true (oval_result_negate true v) = v) ∧
    oval_result_negate true oval_result_t.OVAL_RESULT_TRUE
      = oval_result_t.OVAL_RESULT_FALSE ∧
    oval_result_negate true oval_result_t.OVAL_RESULT_FALSE
      = oval_result_t.OVAL_RESULT_TRUE ∧
    (∀ v : oval_result_t, v ≠ oval_result_t.OVAL_RESULT_TRUE →
      v ≠ oval_result_t.OVAL_RESULT_FALSE → oval_result_negate true v = v) ∧
    (∀ v : oval_result_t, oval_result_negate false v = v) := by
  refine ⟨?_, rfl, rfl, ?_, ?_⟩
  · intro v
    cases v <;> rfl
  · intro v h1 h2
    cases v <;> first | rfl | exact absurd rfl h1 | exact absurd rfl h2
  · intro v
    rfl

/-- C14: for a marker whose `idref` names a Value item, when the resolution that
`use` selects yields no text (no first title text under `title`, no value
bound by the policy otherwise), the callback fails with status 2 and keeps the
marker, whatever plain text the benchmark holds under the same `idref`: the
callback gives the same result under every benchmark with the same items and
every policy with the same bound values, whatever its plain texts are. -/
theorem C14_no_plain_text_fallback (ns_ok : Option xmlNs → Bool) (n : xmlNode)
    (data : _xccdf_text_substitution_data) (policy : xccdf_policy)
    (model : xccdf_policy_model) (benchmark : xccdf_benchmark) (idref : String)
    (v : xccdf_item)
    (hname : n.name = some "sub") (hns : ns_ok n.ns = true)
    (hid : xmlGetProp n "idref" = some idref) (hne : idref ≠ "")
    (hpol : data.policy = some policy)
    (hmod : xccdf_policy_get_model policy = some model)
    (hb : xccdf_policy_model_get_benchmark model = some benchmark)
    (hv : xccdf_benchmark_get_item benchmark idref = some v)
    (hty : xccdf_item_get_type v = xccdf_type_t.XCCDF_VALUE)
    (hnone :
      ((xmlGetProp n "use" = some "title" ∨
          ((xmlGetProp n "use" = none ∨ xmlGetProp n "use" = some "" ∨
              xmlGetProp n "use" = some "legacy") ∧ data.processing_type % 2 = 1)) ∧
        (xccdf_item_get_title v).head?.bind oscap_text_get_text = none) ∨
      (((∃ u, xmlGetProp n "use" = some u ∧ u ≠ "" ∧ u ≠ "legacy" ∧ u ≠ "title") ∨
          ((xmlGetProp n "use" = none ∨ xmlGetProp n "use" = some "" ∨
              xmlGetProp n "use" = some "legacy") ∧ data.processing_type % 2 ≠ 1)) ∧
        xccdf_policy_get_value_of_item policy v = none)) :
    (_xccdf_text_substitution_cb ns_ok (some (some n)) (some data)).status = 2 ∧
    (_xccdf_text_substitution_cb ns_ok (some (some n)) (some data)).node = some n ∧
    (_xccdf_text_substitution_cb ns_ok (some (some n)) (some data)).error
      = some (err_resolve idref) ∧
    (∀ (policy2 : xccdf_policy) (model2 : xccdf_policy_model) (benchmark2 : xccdf_benchmark),
      xccdf_policy_get_model policy2 = some model2 →
      xccdf_policy_model_get_benchmark model2 = some benchmark2 →
      benchmark2.get_item = benchmark.get_item →
      policy2.get_value_of_item = policy.get_value_of_item →
      _xccdf_text_substitution_cb ns_ok (some (some n))
          (some { policy := some policy2, processing_type := data.processing_type })
        = _xccdf_text_substitution_cb ns_ok (some (some n)) (some data)) := by
  have hcb := _xccdf_text_substitution_cb_marker ns_ok n data policy model benchmark idref
    hname hns hid hne hpol hmod hb
  have hres1 : (_xccdf_text_substitution_result policy benchmark data n idref).1 = none := by
    rcases hnone with ⟨huse, hnil⟩ | ⟨huse | ⟨huse, hp⟩, hnil⟩
    · rw [_xccdf_text_substitution_result_title policy benchmark data n idref v hv hty huse]
      exact hnil
    · obtain ⟨u, hu, h1, h2, h3⟩ := huse
      rw [_xccdf_text_substitution_result_value policy benchmark data n idref v u hv hty hu
        h1 h2 h3]
      exact hnil
    · rw [_xccdf_text_substitution_result_legacy_value policy benchmark data n idref v hv
        hty huse hp]
      exact hnil
  refine ⟨?_, ?_, ?_, ?_⟩
  · rw [hcb, hres1]
  · rw [hcb, hres1]
  · rw [hcb, hres1]
  · intro policy2 model2 benchmark2 hmod2 hb2 hitem hvalue
    have hv0 : benchmark.get_item idref = some v := hv
    have hcb2 := _xccdf_text_substitution_cb_marker ns_ok n
      { policy := some policy2, processing_type := data.processing_type }
      policy2 model2 benchmark2 idref hname hns hid hne rfl hmod2 hb2
    have hres : _xccdf_text_substitution_result policy2 benchmark2
          { policy := some policy2, processing_type := data.processing_type } n idref
        = _xccdf_text_substitution_result policy benchmark data n idref := by
      simp only [_xccdf_text_substitution_result, xccdf_benchmark_get_item, hitem, hv0, hty,
        xccdf_policy_get_value_of_item, hvalue, if_true]
    rw [hcb2, hcb, hres]

/-- C14, on the Value `V2`, which has no title and no bound value, in a
benchmark that holds the plain text `Fallback text` under `V2`: the callback
fails with status 2, under `use="title"` as under `use="value"`. -/
theorem C14_no_plain_text_fallback_witness :
    xccdf_benchmark_get_plain_text demo_benchmark_both "V2" = some "Fallback text" ∧
    (_xccdf_text_substitution_cb demo_supported
        (some (some (demo_sub [{ name := "idref", value := "V2" },
          { name := "use", value := "title" }] [])))
        (some { policy := some demo_policy_both, processing_type := 6 })).status = 2 ∧
    (_xccdf_text_substitution_cb demo_supported
        (some (some (demo_sub [{ name := "idref", value := "V2" },
          { name := "use", value := "value" }] [])))
        (some { policy := some demo_policy_both, processing_type := 6 })).status = 2 :=
  ⟨rfl,
   (C14_no_plain_text_fallback demo_supported
      (demo_sub [{ name := "idref", value := "V2" }, { name := "use", value := "title" }] [])
      { policy := some demo_policy_both, processing_type := 6 } demo_policy_both
      { benchmark := some demo_benchmark_both } demo_benchmark_both "V2" demo_value_bare
      rfl rfl rfl (by decide) rfl rfl rfl rfl rfl (Or.inl ⟨Or.inl rfl, rfl⟩)).1,
   (C14_no_plain_text_fallback demo_supported
      (demo_sub [{ name := "idref", value := "V2" }, { name := "use", value := "value" }] [])
      { policy := some demo_policy_both, processing_type := 6 } demo_policy_both
      { benchmark := some demo_benchmark_both } demo_benchmark_both "V2" demo_value_bare
      rfl rfl rfl (by decide) rfl rfl rfl rfl rfl
      (Or.inr ⟨Or.inl ⟨"value", rfl, by decide, by decide, by decide⟩, rfl⟩)).1⟩

/-- C15: for a marker whose `idref` names a Value item, under every policy and
processing type, the marker with an empty `use` gives the status, warnings,
error and replacement of the same marker without `use`, and those of the same
marker with `use="legacy"`. -/
theorem C15_empty_use (ns_ok : Option xmlNs → Bool) (e a l : xmlNode)
    (data : _xccdf_text_substitution_data) (policy : xccdf_policy)
    (model : xccdf_policy_model) (benchmark : xccdf_benchmark) (idref : String)
    (v : xccdf_item)
    (hen : e.name = some "sub") (hens : ns_ok e.ns = true)
    (han : a.name = some "sub") (hans : ns_ok a.ns = true)
    (hln : l.name = some "sub") (hlns : ns_ok l.ns = true)
    (hach : a.children = e.children) (hlch : l.children = e.children)
    (heid : xmlGetProp e "idref" = some idref)
    (haid : xmlGetProp a "idref" = some idref)
    (hlid : xmlGetProp l "idref" = some idref)
    (hpol : data.policy = some policy)
    (hmod : xccdf_policy_get_model policy = some model)
    (hb : xccdf_policy_model_get_benchmark model = some benchmark)
    (hv : xccdf_benchmark_get_item benchmark idref = some v)
    (hty : xccdf_item_get_type v = xccdf_type_t.XCCDF_VALUE)
    (heuse : xmlGetProp e "use" = some "")
    (hause : xmlGetProp a "use" = none)
    (hluse : xmlGetProp l "use" = some "legacy") :
    ((_xccdf_text_substitution_cb ns_ok (some (some e)) (some data)).status
        = (_xccdf_text_substitution_cb ns_ok (some (some a)) (some data)).status ∧
      (_xccdf_text_substitution_cb ns_ok (some (some e)) (some data)).warnings
        = (_xccdf_text_substitution_cb ns_ok (some (some a)) (some data)).warnings ∧
      (_xccdf_text_substitution_cb ns_ok (some (some e)) (some data)).error
        = (_xccdf_text_substitution_cb ns_ok (some (some a)) (some data)).error ∧
      ((_xccdf_text_substitution_cb ns_ok (some (some e)) (some data)).status = 0 →
        (_xccdf_text_substitution_cb ns_ok (some (some e)) (some data)).node
          = (_xccdf_text_substitution_cb ns_ok (some (some a)) (some data)).node)) ∧
    ((_xccdf_text_substitution_cb ns_ok (some (some e)) (some data)).status
        = (_xccdf_text_substitution_cb ns_ok (some (some l)) (some data)).status ∧
      (_xccdf_text_substitution_cb ns_ok (some (some e)) (some data)).warnings
        = (_xccdf_text_substitution_cb ns_ok (some (some l)) (some data)).warnings ∧
      (_xccdf_text_substitution_cb ns_ok (some (some e)) (some data)).error
        = (_xccdf_text_substitution_cb ns_ok (some (some l)) (some data)).error ∧
      ((_xccdf_text_substitution_cb ns_ok (some (some e)) (some data)).status = 0 →
        (_xccdf_text_substitution_cb ns_ok (some (some e)) (some data)).node
          = (_xccdf_text_substitution_cb ns_ok (some (some l)) (some data)).node)) := by
  by_cases hne : idref = ""
  · rw [_xccdf_text_substitution_cb_no_idref ns_ok e data hen hens (by simp [heid, hne]),
      _xccdf_text_substitution_cb_no_idref ns_ok a data han hans (by simp [haid, hne]),
      _xccdf_text_substitution_cb_no_idref ns_ok l data hln hlns (by simp [hlid, hne]),
      hach, hlch]
    simp
  · have hres : ∀ x : xmlNode,
        (xmlGetProp x "use" = none ∨ xmlGetProp x "use" = some "" ∨
          xmlGetProp x "use" = some "legacy") →
        _xccdf_text_substitution_result policy benchmark data x idref
          = if data.processing_type % 2 = 1
            then ((xccdf_item_get_title v).head?.bind oscap_text_get_text, [])
            else (xccdf_policy_get_value_of_item policy v, []) := by
      intro x hx
      by_cases hp : data.processing_type % 2 = 1
      · rw [if_pos hp]
        exact _xccdf_text_substitution_result_title policy benchmark data x idref v hv hty
          (Or.inr ⟨hx, hp⟩)
      · rw [if_neg hp]
        exact _xccdf_text_substitution_result_legacy_value policy benchmark data x idref v hv
          hty hx hp
    rw [_xccdf_text_substitution_cb_marker ns_ok e data policy model benchmark idref hen hens
        heid hne hpol hmod hb,
      _xccdf_text_substitution_cb_marker ns_ok a data policy model benchmark idref han hans
        haid hne hpol hmod hb,
      _xccdf_text_substitution_cb_marker ns_ok l data policy model benchmark idref hln hlns
        hlid hne hpol hmod hb,
      hres e (Or.inr (Or.inl heuse)), hres a (Or.inl hause),
      hres l (Or.inr (Or.inr hluse)), hach, hlch]
    cases (if data.processing_type % 2 = 1
      then ((xccdf_item_get_title v).head?.bind oscap_text_get_text, ([] : List String))
      else (xccdf_policy_get_value_of_item policy v, [])).1 <;> simp

/-- C15, on the Value `V1` in Tailoring (1): the markers with `use=""`, without
`use` and with `use="legacy"` are all replaced by the first title. -/
theorem C15_empty_use_witness :
    (_xccdf_text_substitution_cb demo_supported
        (some (some (demo_sub [{ name := "idref", value := "V1" },
          { name := "use", value := "" }] [])))
        (some { policy := some demo_policy, processing_type := 1 })).node
      = some (xmlNewText "Minimum length") ∧
    (_xccdf_text_substitution_cb demo_supported
        (some (some (demo_sub [{ name := "idref", value := "V1" },
          { name := "use", value := "" }] [])))
        (some { policy := some demo_policy, processing_type := 1 })).node
      = (_xccdf_text_substitution_cb demo_supported
        (some (some (demo_sub [{ name := "idref", value := "V1" }] [])))
        (some { policy := some demo_policy, processing_type := 1 })).node ∧
    (_xccdf_text_substitution_cb demo_supported
        (some (some (demo_sub [{ name := "idref", value := "V1" },
          { name := "use", value := "" }] [])))
        (some { policy := some demo_policy, processing_type := 1 })).node
      = (_xccdf_text_substitution_cb demo_supported
        (some (some (demo_sub [{ name := "idref", value := "V1" },
          { name := "use", value := "legacy" }] [])))
        (some { policy := some demo_policy, processing_type := 1 })).node :=
  ⟨rfl,
   (C15_empty_use demo_supported
      (demo_sub [{ name := "idref", value := "V1" }, { name := "use", value := "" }] [])
      (demo_sub [{ name := "idref", value := "V1" }] [])
      (demo_sub [{ name := "idref", value := "V1" }, { name := "use", value := "legacy" }] [])
      { policy := some demo_policy, processing_type := 1 } demo_policy
      { benchmark := some demo_benchmark } demo_benchmark "V1" demo_value
      rfl rfl rfl rfl rfl rfl rfl rfl rfl rfl rfl rfl rfl rfl rfl rfl rfl rfl rfl).1.2.2.2 rfl,
   (C15_empty_use demo_supported
      (demo_sub [{ name := "idref", value := "V1" }, { name := "use", value := "" }] [])
      (demo_sub [{ name := "idref", value := "V1" }] [])
      (demo_sub [{ name := "idref", value := "V1" }, { name := "use", value := "legacy" }] [])
      { policy := some demo_policy, processing_type := 1 } demo_policy
      { benchmark := some demo_benchmark } demo_benchmark "V1" demo_value
      rfl rfl rfl rfl rfl rfl rfl rfl rfl rfl rfl rfl rfl rfl rfl rfl rfl rfl rfl).2.2.2.2 rfl⟩
